import Mathlib

set_option maxHeartbeats 1000000

/-!
Verification of the floor-plan solver core (force-directed placer,
simulated-annealing refiner, Vastu potential field and geometry
primitives) of the vastu-ai-architect repository, against its
natural-language specification.

Conventions of the embedding:
* Python float arithmetic is idealized as exact field arithmetic
  (rationals where the claims need computation, reals elsewhere).
* Euclidean distances that the source only ever compares are carried
  as squared distances; comparisons are preserved because the square
  root is strictly monotone on nonnegative numbers.  Where the source
  uses the numeric value of a norm, the embedding uses Real.sqrt.
* The numpy global random generator is modelled as an explicit state
  (a deterministic stream of draws together with a cursor) threaded
  through every function that the source lets touch numpy randomness.
-/

namespace VastuAI

section GeometryUtils

variable {K : Type} [LinearOrderedField K]

/-- Python `min` of two numbers (explicit conditional, so that
concrete rational instances evaluate by kernel reduction). -/
def pyMin (a b : K) : K := if a ≤ b then a else b

/-- Python `max` of two numbers. -/
def pyMax (a b : K) : K := if a ≤ b then b else a

/-- Edge list of a polygon as the source iterates it: consecutive
vertex pairs, closing back to the first vertex. -/
def polyEdges (poly : List (K × K)) : List ((K × K) × (K × K)) :=
  poly.zip (poly.rotate 1)

/-- One iteration of the ray-casting loop in
geometry_utils.point_in_polygon, for the edge from p1 to p2.
In the source, `xinters` is only read when `p1y != p2y` assigned it in
the same iteration, or when `p1x == p2x` short-circuits the read; the
remaining case (`p1y == p2y` and `p1x != p2x`) is unreachable inside
the guard `min p1y p2y < y ≤ max p1y p2y`. -/
def pipStep (x y : K) (inside : Bool) (p1 p2 : K × K) : Bool :=
  if pyMin p1.2 p2.2 < y ∧ y ≤ pyMax p1.2 p2.2 ∧ x ≤ pyMax p1.1 p2.1 then
    (if p1.1 = p2.1 ∨ x ≤ (y - p1.2) * (p2.1 - p1.1) / (p2.2 - p1.2) + p1.1 then
      !inside
    else inside)
  else inside

/-- Embedding of geometry_utils.point_in_polygon (ray casting).
An empty polygon returns true, as in the source. -/
def point_in_polygon (p : K × K) (poly : List (K × K)) : Bool :=
  if poly.isEmpty then true
  else (polyEdges poly).foldl (fun ins e => pipStep p.1 p.2 ins e.1 e.2) false

/-- Squared Euclidean distance between two points. -/
def sqDist (a b : K × K) : K :=
  (a.1 - b.1) * (a.1 - b.1) + (a.2 - b.2) * (a.2 - b.2)

/-- Point of an edge at parameter t of the closed segment, t in [0,1]. -/
def edgePoint (e : (K × K) × (K × K)) (t : K) : K × K :=
  (e.1.1 + t * (e.2.1 - e.1.1), e.1.2 + t * (e.2.2 - e.1.2))

/-- Embedding of geometry_utils._project_point_to_segment.  The source
returns the projected point and its Euclidean distance to `pt`; the
embedding carries the squared distance (see the file header). -/
def projT (pt a b : K × K) : K :=
  pyMax 0 (pyMin 1 (((pt.1 - a.1) * (b.1 - a.1) + (pt.2 - a.2) * (b.2 - a.2)) /
    ((b.1 - a.1) * (b.1 - a.1) + (b.2 - a.2) * (b.2 - a.2))))

def projSeg (pt a b : K × K) : (K × K) × K :=
  if (b.1 - a.1) * (b.1 - a.1) + (b.2 - a.2) * (b.2 - a.2) = 0 then (a, sqDist pt a)
  else (edgePoint (a, b) (projT pt a b), sqDist pt (edgePoint (a, b) (projT pt a b)))

/-- One iteration of the minimum-distance loop of
geometry_utils.project_point_inside; the `float(inf)` initial minimum
is modelled by a `none` accumulator. -/
def projFoldStep (p : K × K) (acc : (K × K) × Option K) (e : (K × K) × (K × K)) :
    (K × K) × Option K :=
  match acc.2 with
  | none => ((projSeg p e.1 e.2).1, some (projSeg p e.1 e.2).2)
  | some m =>
    if (projSeg p e.1 e.2).2 < m then ((projSeg p e.1 e.2).1, some (projSeg p e.1 e.2).2)
    else acc

/-- Embedding of geometry_utils.project_point_inside: if the point is
outside the polygon (per point_in_polygon), project it to the closest
point over all boundary edges. -/
def project_point_inside (p : K × K) (poly : List (K × K)) : K × K :=
  if poly.isEmpty then p
  else if point_in_polygon p poly then p
  else ((polyEdges poly).foldl (projFoldStep p) (p, (none : Option K))).1

/-- Embedding of geometry_utils.calculate_polygon_area (shoelace with
absolute value, zero for fewer than three vertices). -/
def calculate_polygon_area (poly : List (K × K)) : K :=
  if poly.length < 3 then 0
  else |(polyEdges poly).foldl (fun s e => s + (e.1.1 * e.2.2 - e.2.1 * e.1.2)) 0| / 2

/-- Embedding of geometry_utils.calculate_polygon_centroid (shoelace
centroid with vertex-mean fallback for near-degenerate polygons). -/
def calculate_polygon_centroid (poly : List (K × K)) : K × K :=
  if poly.length = 0 then (0, 0)
  else
    let sA := (polyEdges poly).foldl (fun s e => s + (e.1.1 * e.2.2 - e.2.1 * e.1.2)) 0
    let sx := (polyEdges poly).foldl
      (fun s e => s + (e.1.1 + e.2.1) * (e.1.1 * e.2.2 - e.2.1 * e.1.2)) 0
    let sy := (polyEdges poly).foldl
      (fun s e => s + (e.1.2 + e.2.2) * (e.1.1 * e.2.2 - e.2.1 * e.1.2)) 0
    let A := sA / 2
    if |A| < 1 / 1000000000 then
      ((poly.map Prod.fst).sum / (poly.length : K), (poly.map Prod.snd).sum / (poly.length : K))
    else (sx / (6 * A), sy / (6 * A))

/-- Python rounding to the nearest integer with ties to even (the
built-in `round`). -/
def roundHalfEven [FloorRing K] (x : K) : ℤ :=
  if Int.fract x = 1 / 2 then (if 2 ∣ ⌊x⌋ then ⌊x⌋ else ⌊x⌋ + 1) else round x

/-- Python `round(x, 2)`. -/
def round2 [FloorRing K] (x : K) : K :=
  (roundHalfEven (x * 100) : K) / 100

/-- One coordinate of sa_solver_impl.snap_to_grid:
`round(x / grid_size) * grid_size`. -/
def snapCoord [FloorRing K] (g x : K) : K :=
  (roundHalfEven (x / g) : K) * g

/-- Embedding of sa_solver_impl.snap_to_grid on the exterior
coordinate ring of a polygon (shapely polygons are modelled by their
exterior rings; rebuilding a ShapelyPolygon from the snapped closed
ring keeps exactly these coordinates). -/
def snap_to_grid [FloorRing K] (poly : List (K × K)) (g : K) : List (K × K) :=
  poly.map (fun q => (snapCoord g q.1, snapCoord g q.2))

/-- Membership of a point in the boundary of a polygon: it lies on one
of the closed edge segments. -/
def onPolyBoundary (p : K × K) (poly : List (K × K)) : Prop :=
  ∃ e ∈ polyEdges poly, ∃ t : K, 0 ≤ t ∧ t ≤ 1 ∧ p = edgePoint e t

end GeometryUtils

/-- The axis-aligned square with corners (0,0) and (2,2), listed CCW. -/
def sqPoly : List (ℚ × ℚ) := [(0, 0), (2, 0), (2, 2), (0, 2)]

theorem roundHalfEven_intCast {K : Type} [LinearOrderedField K] [FloorRing K] (n : ℤ) :
    roundHalfEven (n : K) = n := by
  have h0 : Int.fract (n : K) = 0 := Int.fract_intCast n
  have hne : (0 : K) ≠ 1 / 2 := by norm_num
  simp [roundHalfEven, h0, hne]

theorem snapCoord_idem {K : Type} [LinearOrderedField K] [FloorRing K]
    {g : K} (hg : g ≠ 0) (x : K) : snapCoord g (snapCoord g x) = snapCoord g x := by
  unfold snapCoord
  rw [mul_div_cancel_right₀ _ hg, roundHalfEven_intCast]

section ProjectionLemmas

variable {K : Type} [LinearOrderedField K]

theorem clamp_cases (v : K) :
    (pyMax 0 (pyMin 1 v) = v ∧ 0 ≤ v ∧ v ≤ 1) ∨
    (pyMax 0 (pyMin 1 v) = 0 ∧ v ≤ 0) ∨
    (pyMax 0 (pyMin 1 v) = 1 ∧ 1 ≤ v) := by
  unfold pyMin pyMax
  split_ifs with h1 h2 h3
  · right; right; exact ⟨rfl, h1⟩
  · right; left
    constructor
    · rfl
    · linarith [not_le.mp h2]
  · left; exact ⟨rfl, h3, le_of_not_le h1⟩
  · right; left
    constructor
    · rfl
    · linarith [not_le.mp h3]

theorem projSeg_dist (pt a b : K × K) :
    (projSeg pt a b).2 = sqDist pt (projSeg pt a b).1 := by
  unfold projSeg
  split <;> simp

theorem edgePoint_zero (a b : K × K) : edgePoint (a, b) 0 = a := by
  simp [edgePoint]

theorem projT_mem (pt a b : K × K) :
    ∃ t : K, 0 ≤ t ∧ t ≤ 1 ∧ projT pt a b = t := by
  rcases clamp_cases (((pt.1 - a.1) * (b.1 - a.1) + (pt.2 - a.2) * (b.2 - a.2)) /
      ((b.1 - a.1) * (b.1 - a.1) + (b.2 - a.2) * (b.2 - a.2))) with
    ⟨he, h0, h1⟩ | ⟨he, _⟩ | ⟨he, _⟩
  · exact ⟨_, h0, h1, he⟩
  · exact ⟨0, le_refl 0, zero_le_one, he⟩
  · exact ⟨1, zero_le_one, le_refl 1, he⟩

theorem projSeg_onSeg (pt a b : K × K) :
    ∃ t : K, 0 ≤ t ∧ t ≤ 1 ∧ (projSeg pt a b).1 = edgePoint (a, b) t := by
  unfold projSeg
  split
  · exact ⟨0, le_refl 0, zero_le_one, (edgePoint_zero a b).symm⟩
  · obtain ⟨t, h0, h1, ht⟩ := projT_mem pt a b
    exact ⟨t, h0, h1, by rw [ht]⟩

theorem projSeg_min (pt a b : K × K) (s : K) (h0 : 0 ≤ s) (h1 : s ≤ 1) :
    (projSeg pt a b).2 ≤ sqDist pt (edgePoint (a, b) s) := by
  have key : ∀ u : K, sqDist pt (edgePoint (a, b) u) =
      (pt.1 - a.1) * (pt.1 - a.1) + (pt.2 - a.2) * (pt.2 - a.2)
        - 2 * u * ((pt.1 - a.1) * (b.1 - a.1) + (pt.2 - a.2) * (b.2 - a.2))
        + u * u * ((b.1 - a.1) * (b.1 - a.1) + (b.2 - a.2) * (b.2 - a.2)) := by
    intro u
    simp only [sqDist, edgePoint]
    ring
  unfold projSeg
  split
  · rename_i hz
    have hx : b.1 - a.1 = 0 := by
      nlinarith [mul_self_nonneg (b.1 - a.1), mul_self_nonneg (b.2 - a.2)]
    have hy : b.2 - a.2 = 0 := by
      nlinarith [mul_self_nonneg (b.1 - a.1), mul_self_nonneg (b.2 - a.2)]
    have he : edgePoint (a, b) s = a := by
      simp [edgePoint, hx, hy]
    rw [he]
  · rename_i hz
    set D := (pt.1 - a.1) * (b.1 - a.1) + (pt.2 - a.2) * (b.2 - a.2) with hD
    set l2 := (b.1 - a.1) * (b.1 - a.1) + (b.2 - a.2) * (b.2 - a.2) with hl2
    have hnn : (0 : K) ≤ l2 := by
      rw [hl2]
      exact add_nonneg (mul_self_nonneg _) (mul_self_nonneg _)
    have hpos : 0 < l2 := lt_of_le_of_ne hnn (Ne.symm hz)
    simp only
    rw [key s, key (projT pt a b)]
    have hclamp := clamp_cases (D / l2)
    have hT : projT pt a b = pyMax 0 (pyMin 1 (D / l2)) := rfl
    rcases hclamp with ⟨he, ht0, ht1⟩ | ⟨he, hv⟩ | ⟨he, hv⟩
    · rw [hT, he]
      have hDe : D = D / l2 * l2 := by field_simp
      nlinarith [sq_nonneg (s - D / l2), hpos]
    · rw [hT, he]
      have hDle : D ≤ 0 := by
        by_contra hc
        push_neg at hc
        have : 0 < D / l2 := div_pos hc hpos
        linarith
      nlinarith
    · rw [hT, he]
      have hDge : l2 ≤ D := by
        have := (one_le_div hpos).mp hv
        linarith
      have h2 : 0 ≤ 2 * D - l2 * (s + 1) := by nlinarith
      nlinarith [mul_nonneg (by linarith : (0 : K) ≤ 1 - s) h2]

/-- Invariant of the projection fold: the accumulator holds the point
with minimum squared distance among the closed-segment projections of
the edges seen so far, and that point lies on one of those edges. -/
def ProjInv (p : K × K) (acc : (K × K) × Option K) (seen : List ((K × K) × (K × K))) : Prop :=
  ∃ d, acc.2 = some d ∧ d = sqDist p acc.1 ∧
    (∃ e ∈ seen, ∃ t : K, 0 ≤ t ∧ t ≤ 1 ∧ acc.1 = edgePoint e t) ∧
    (∀ e ∈ seen, ∀ s : K, 0 ≤ s → s ≤ 1 → d ≤ sqDist p (edgePoint e s))

theorem projInv_start (p : K × K) (e : (K × K) × (K × K)) :
    ProjInv p (projFoldStep p (p, none) e) [e] := by
  refine ⟨(projSeg p e.1 e.2).2, rfl, ?_, ?_, ?_⟩
  · exact projSeg_dist p e.1 e.2
  · obtain ⟨t, h0, h1, ht⟩ := projSeg_onSeg p e.1 e.2
    exact ⟨e, List.mem_singleton_self e, t, h0, h1, ht⟩
  · intro e' he' s hs0 hs1
    rw [List.mem_singleton] at he'
    subst he'
    exact projSeg_min p e'.1 e'.2 s hs0 hs1

theorem projInv_step (p : K × K) (acc : (K × K) × Option K)
    (seen : List ((K × K) × (K × K))) (e : (K × K) × (K × K))
    (h : ProjInv p acc seen) : ProjInv p (projFoldStep p acc e) (seen ++ [e]) := by
  obtain ⟨d, hsome, hdist, ⟨e0, he0, t0, ht00, ht01, hpt⟩, hmin⟩ := h
  unfold projFoldStep
  rw [hsome]
  by_cases hlt : (projSeg p e.1 e.2).2 < d
  · simp only [hlt, if_true]
    refine ⟨(projSeg p e.1 e.2).2, rfl, projSeg_dist p e.1 e.2, ?_, ?_⟩
    · obtain ⟨t, h0, h1, ht⟩ := projSeg_onSeg p e.1 e.2
      exact ⟨e, by simp, t, h0, h1, ht⟩
    · intro e' he' s hs0 hs1
      rcases List.mem_append.mp he' with hseen | hnew
      · exact le_trans (le_of_lt hlt) (hmin e' hseen s hs0 hs1)
      · rw [List.mem_singleton] at hnew
        subst hnew
        exact projSeg_min p e'.1 e'.2 s hs0 hs1
  · simp only [hlt, if_false]
    refine ⟨d, hsome, hdist, ⟨e0, by simp [he0], t0, ht00, ht01, hpt⟩, ?_⟩
    intro e' he' s hs0 hs1
    rcases List.mem_append.mp he' with hseen | hnew
    · exact hmin e' hseen s hs0 hs1
    · rw [List.mem_singleton] at hnew
      subst hnew
      exact le_trans (not_lt.mp hlt) (projSeg_min p e'.1 e'.2 s hs0 hs1)

theorem projInv_fold (p : K × K) (es : List ((K × K) × (K × K))) :
    ∀ acc seen, ProjInv p acc seen →
      ProjInv p (es.foldl (projFoldStep p) acc) (seen ++ es) := by
  induction es with
  | nil => intro acc seen h; simpa using h
  | cons e es ih =>
    intro acc seen h
    have h2 := ih (projFoldStep p acc e) (seen ++ [e]) (projInv_step p acc seen e h)
    simpa using h2

end ProjectionLemmas

theorem sqPoly_edges : polyEdges sqPoly =
    [((0, 0), (2, 0)), ((2, 0), (2, 2)), ((2, 2), (0, 2)), ((0, 2), (0, 0))] := by
  simp [polyEdges, sqPoly, List.rotate]

/-- C6 counterexample: the midpoint (1,0) of the bottom edge of the
square (0,0)-(2,2) lies on the polygon boundary, the polygon has at
least three vertices, yet point_in_polygon classifies it as outside.
This refutes the claim that every boundary point is inside. -/
theorem C6_counterexample :
    onPolyBoundary ((1 : ℚ), 0) sqPoly ∧ 3 ≤ sqPoly.length ∧
      point_in_polygon ((1 : ℚ), 0) sqPoly = false := by
  refine ⟨⟨((0, 0), (2, 0)), ?_, 1 / 2, by norm_num, by norm_num, ?_⟩, by decide, by decide⟩
  · rw [sqPoly_edges]
    simp
  · norm_num [edgePoint]

/-- C6 (corrected): the ray-casting point_in_polygon does not treat
boundary points uniformly as inside: the midpoint (2,1) of the right
edge of the square (0,0)-(2,2) is on the boundary and classified
inside, while the midpoint (1,0) of the bottom edge is on the boundary
and classified outside. -/
theorem C6_boundary_inconsistent :
    onPolyBoundary ((2 : ℚ), 1) sqPoly ∧ point_in_polygon ((2 : ℚ), 1) sqPoly = true ∧
    onPolyBoundary ((1 : ℚ), 0) sqPoly ∧ point_in_polygon ((1 : ℚ), 0) sqPoly = false := by
  refine ⟨⟨((2, 0), (2, 2)), ?_, 1 / 2, by norm_num, by norm_num, ?_⟩, by decide,
    ⟨((0, 0), (2, 0)), ?_, 1 / 2, by norm_num, by norm_num, ?_⟩, by decide⟩
  · rw [sqPoly_edges]
    simp
  · norm_num [edgePoint]
  · rw [sqPoly_edges]
    simp
  · norm_num [edgePoint]

/-- C7 counterexample: for the interior point (1,1) of the square
(0,0)-(2,2), project_point_inside returns the point itself, which does
not lie on any boundary edge; this refutes the claim that the
projection lands on the boundary even for interior points. -/
theorem C7_counterexample :
    project_point_inside ((1 : ℚ), 1) sqPoly = (1, 1) ∧
      ¬ onPolyBoundary ((1 : ℚ), 1) sqPoly := by
  constructor
  · have hin : point_in_polygon ((1 : ℚ), 1) sqPoly = true := by decide
    unfold project_point_inside
    rw [hin]
    simp [sqPoly]
  · rintro ⟨e, he, t, h0, h1, hp⟩
    rw [sqPoly_edges] at he
    simp only [List.mem_cons, List.mem_singleton, List.not_mem_nil, or_false] at he
    rcases he with rfl | rfl | rfl | rfl <;>
      (simp only [edgePoint, Prod.mk.injEq] at hp) <;> obtain ⟨hp1, hp2⟩ := hp <;> linarith

/-- C7 (corrected): for every polygon with at least three vertices and
every point p that point_in_polygon classifies as outside, the
projection returns a point lying on a boundary edge that minimizes the
(squared) distance to p over all closed-segment edge projections; for
a point classified as inside, the point itself is returned unchanged. -/
theorem C7_projection (p : ℚ × ℚ) (poly : List (ℚ × ℚ)) (hn : 3 ≤ poly.length) :
    (point_in_polygon p poly = true → project_point_inside p poly = p) ∧
    (point_in_polygon p poly = false →
      onPolyBoundary (project_point_inside p poly) poly ∧
      ∀ e ∈ polyEdges poly, ∀ s : ℚ, 0 ≤ s → s ≤ 1 →
        sqDist p (project_point_inside p poly) ≤ sqDist p (edgePoint e s)) := by
  have hne : poly.isEmpty = false := by
    cases poly with
    | nil => simp at hn
    | cons a l => rfl
  constructor
  · intro hin
    unfold project_point_inside
    rw [hne, hin]
    simp
  · intro hout
    have hlen : (polyEdges poly).length = poly.length := by
      unfold polyEdges
      rw [List.length_zip, List.length_rotate]
      exact min_self _
    have hedges : polyEdges poly ≠ [] := by
      intro hcon
      rw [hcon] at hlen
      simp at hlen
      omega
    obtain ⟨e, es, hes⟩ := List.exists_cons_of_ne_nil hedges
    have hfold : ProjInv p ((polyEdges poly).foldl (projFoldStep p) (p, none)) (polyEdges poly) := by
      rw [hes, List.foldl_cons]
      have h2 := projInv_fold p es (projFoldStep p (p, none) e) [e] (projInv_start p e)
      simpa using h2
    obtain ⟨d, hsome, hdist, hon, hmin⟩ := hfold
    have hval : project_point_inside p poly =
        ((polyEdges poly).foldl (projFoldStep p) (p, none)).1 := by
      unfold project_point_inside
      rw [hne, hout]
      simp
    constructor
    · rw [hval]
      exact hon
    · intro e2 he2 s h0 h1
      rw [hval, ← hdist]
      exact hmin e2 he2 s h0 h1

/-- Witness for C7_projection at the concrete outside point (3,1) of
the square (0,0)-(2,2). -/
theorem C7_projection_witness :
    3 ≤ sqPoly.length ∧
    (point_in_polygon ((3 : ℚ), 1) sqPoly = true → project_point_inside ((3 : ℚ), 1) sqPoly = ((3 : ℚ), 1)) ∧
    (point_in_polygon ((3 : ℚ), 1) sqPoly = false →
      onPolyBoundary (project_point_inside ((3 : ℚ), 1) sqPoly) sqPoly ∧
      ∀ e ∈ polyEdges sqPoly, ∀ s : ℚ, 0 ≤ s → s ≤ 1 →
        sqDist ((3 : ℚ), 1) (project_point_inside ((3 : ℚ), 1) sqPoly) ≤ sqDist ((3 : ℚ), 1) (edgePoint e s)) :=
  ⟨by decide, C7_projection ((3 : ℚ), 1) sqPoly (by decide)⟩

/-- C9: snapping all polygon vertices to a positive grid size is
idempotent: applying snap_to_grid twice yields the same geometry as
applying it once. -/
theorem C9_snap_idempotent (poly : List (ℚ × ℚ)) (g : ℚ) (hg : 0 < g) :
    snap_to_grid (snap_to_grid poly g) g = snap_to_grid poly g := by
  unfold snap_to_grid
  rw [List.map_map]
  apply List.map_congr_left
  intro q _
  simp only [Function.comp_apply]
  rw [snapCoord_idem hg.ne.symm, snapCoord_idem hg.ne.symm]

/-- Witness for C9_snap_idempotent at grid size 0.01 on a concrete
polygon with non-grid-aligned vertices. -/
theorem C9_snap_idempotent_witness :
    (0 : ℚ) < 1 / 100 ∧
      snap_to_grid (snap_to_grid [((1 : ℚ) / 3, 2 / 7), (5 / 11, 9 / 13)] (1 / 100)) (1 / 100) =
        snap_to_grid [((1 : ℚ) / 3, 2 / 7), (5 / 11, 9 / 13)] (1 / 100) :=
  ⟨by norm_num, C9_snap_idempotent [((1 : ℚ) / 3, 2 / 7), (5 / 11, 9 / 13)] (1 / 100) (by norm_num)⟩



section PhiGridSection

/-! Embedding of impl/phi_grid.py.  The shapely plot polygon object is
modelled by its containment predicate together with its bounding box
(shapely `contains` is strict interior membership; the only property
of it the theorems use is stated as a hypothesis relating it to the
bounding box).  The value cache of the source is omitted: it only
memoizes values of the pure sampling function. -/

/-- Embedding of the PhiGrid constructor arguments: the plot polygon
(as its containment test and bounds), the parameters, and the room
types requested for the solve. -/
structure PhiGrid where
  containsB : ℝ × ℝ → Bool
  xmin : ℝ
  ymin : ℝ
  xmax : ℝ
  ymax : ℝ
  res : ℝ
  sigma : ℝ
  roomTypes : List String

/-- Grid dimension nx = ceil(width / resolution). -/
noncomputable def PhiGrid.nx (g : PhiGrid) : ℕ := (⌈(g.xmax - g.xmin) / g.res⌉).toNat

/-- Grid dimension ny = ceil(height / resolution). -/
noncomputable def PhiGrid.ny (g : PhiGrid) : ℕ := (⌈(g.ymax - g.ymin) / g.res⌉).toNat

/-- Grid x coordinates, np.linspace(xmin, xmax, nx). -/
noncomputable def PhiGrid.xcoord (g : PhiGrid) (i : ℕ) : ℝ :=
  if g.nx ≤ 1 then g.xmin else g.xmin + i * ((g.xmax - g.xmin) / ((g.nx : ℝ) - 1))

/-- Grid y coordinates, np.linspace(ymin, ymax, ny). -/
noncomputable def PhiGrid.ycoord (g : PhiGrid) (j : ℕ) : ℝ :=
  if g.ny ≤ 1 then g.ymin else g.ymin + j * ((g.ymax - g.ymin) / ((g.ny : ℝ) - 1))

/-- Mask grid: 1 inside plot, 0 outside, sampled at the grid nodes. -/
noncomputable def PhiGrid.mask (g : PhiGrid) (j i : ℕ) : Bool :=
  g.containsB (g.xcoord i, g.ycoord j)

/-- The VASTU_ZONES table of phi_grid.py: preferred anchor centers (in
normalized plot coordinates) and a weight per room type; unknown types
get the default entry ([(0.5, 0.5)], 0.5). -/
def vastuZones (t : String) : List (ℝ × ℝ) × ℝ :=
  if t = "pooja_room" then ([(0.75, 0.75)], 1.0)
  else if t = "kitchen" then ([(0.75, 0.25)], 0.9)
  else if t = "master_bedroom" then ([(0.25, 0.25)], 0.8)
  else if t = "bedroom" then ([(0.25, 0.5)], 0.6)
  else if t = "living" then ([(0.5, 0.75)], 0.7)
  else if t = "dining" then ([(0.5, 0.5)], 0.5)
  else if t = "bathroom" then ([(0.25, 0.75)], 0.7)
  else ([(0.5, 0.5)], 0.5)

/-- Raw potential grid for a type before masking: sum over the
preferred centers of weight times a Gaussian at that center. -/
noncomputable def PhiGrid.rawGrid (g : PhiGrid) (t : String) (j i : ℕ) : ℝ :=
  ((vastuZones t).1.map (fun c =>
    (vastuZones t).2 * Real.exp (-(((g.xcoord i - (g.xmin + c.1 * (g.xmax - g.xmin))) ^ 2 +
      (g.ycoord j - (g.ymin + c.2 * (g.ymax - g.ymin))) ^ 2) / (2 * g.sigma ^ 2))))).sum

/-- Grid after applying the inside-plot mask (grid *= mask). -/
noncomputable def PhiGrid.maskedGrid (g : PhiGrid) (t : String) (j i : ℕ) : ℝ :=
  g.rawGrid t j i * (if g.mask j i then 1 else 0)

/-- All masked entries of the (ny, nx) grid, row by row. -/
noncomputable def PhiGrid.gridEntries (g : PhiGrid) (t : String) : List ℝ :=
  (List.range g.ny).flatMap (fun j => (List.range g.nx).map (fun i => g.maskedGrid t j i))

/-- Maximum of the grid (grid.max()); the entries are nonnegative, so
seeding the fold with 0 agrees with the numpy maximum wherever the
positivity check that consumes it matters. -/
noncomputable def PhiGrid.gridMax (g : PhiGrid) (t : String) : ℝ :=
  (g.gridEntries t).foldl max 0

/-- The stored normalized grid (grid /= grid.max() when the max is
positive). -/
noncomputable def PhiGrid.finalGrid (g : PhiGrid) (t : String) (j i : ℕ) : ℝ :=
  if 0 < g.gridMax t then g.maskedGrid t j i / g.gridMax t else g.maskedGrid t j i

/-- Index clamping of _bilinear_interpolate: max(0, min(z, n-1)). -/
def clampIdx (n : ℕ) (z : ℤ) : ℕ := (max 0 (min z ((n : ℤ) - 1))).toNat

/-- Grid-space x coordinate of a sample point, (x - xmin)/resolution. -/
noncomputable def PhiGrid.gxOf (g : PhiGrid) (x : ℝ) : ℝ := (x - g.xmin) / g.res

/-- Grid-space y coordinate of a sample point. -/
noncomputable def PhiGrid.gyOf (g : PhiGrid) (y : ℝ) : ℝ := (y - g.ymin) / g.res

/-- Clamped cell index i0 = clamp(floor(gx)). -/
noncomputable def PhiGrid.bi0 (g : PhiGrid) (x : ℝ) : ℕ := clampIdx g.nx ⌊g.gxOf x⌋

/-- Clamped cell index i1 = clamp(floor(gx) + 1). -/
noncomputable def PhiGrid.bi1 (g : PhiGrid) (x : ℝ) : ℕ := clampIdx g.nx (⌊g.gxOf x⌋ + 1)

/-- Clamped cell index j0 = clamp(floor(gy)). -/
noncomputable def PhiGrid.bj0 (g : PhiGrid) (y : ℝ) : ℕ := clampIdx g.ny ⌊g.gyOf y⌋

/-- Clamped cell index j1 = clamp(floor(gy) + 1). -/
noncomputable def PhiGrid.bj1 (g : PhiGrid) (y : ℝ) : ℕ := clampIdx g.ny (⌊g.gyOf y⌋ + 1)

/-- Interpolation weight wx = gx - i0 (with i0 already clamped). -/
noncomputable def PhiGrid.bwx (g : PhiGrid) (x : ℝ) : ℝ := g.gxOf x - (g.bi0 x : ℝ)

/-- Interpolation weight wy = gy - j0. -/
noncomputable def PhiGrid.bwy (g : PhiGrid) (y : ℝ) : ℝ := g.gyOf y - (g.bj0 y : ℝ)

/-- Embedding of PhiGrid._bilinear_interpolate. -/
noncomputable def PhiGrid.bilinear (g : PhiGrid) (grid : ℕ → ℕ → ℝ) (x y : ℝ) : ℝ :=
  (1 - g.bwx x) * (1 - g.bwy y) * grid (g.bj0 y) (g.bi0 x) +
    g.bwx x * (1 - g.bwy y) * grid (g.bj0 y) (g.bi1 x) +
    (1 - g.bwx x) * g.bwy y * grid (g.bj1 y) (g.bi0 x) +
    g.bwx x * g.bwy y * grid (g.bj1 y) (g.bi1 x)

/-- Embedding of PhiGrid.sample_point: zero outside the plot, the
neutral value 0.5 for types without a grid, bilinear interpolation of
the stored grid otherwise. -/
noncomputable def PhiGrid.sample_point (g : PhiGrid) (x y : ℝ) (t : String) : ℝ :=
  if g.containsB (x, y) = false then 0
  else if t ∈ g.roomTypes then g.bilinear (g.finalGrid t) x y
  else 0.5

/-- Embedding of PhiGrid.sample_phi: the mean of sample_point over all
requested room types (0 when there are none); note that it takes no
room type argument. -/
noncomputable def PhiGrid.sample_phi (g : PhiGrid) (x y : ℝ) : ℝ :=
  if g.roomTypes.isEmpty then 0
  else ((g.roomTypes.map (fun t => g.sample_point x y t)).sum) / (g.roomTypes.length : ℝ)

theorem vastuZones_weight_pos (t : String) : 0 < (vastuZones t).2 := by
  unfold vastuZones
  split_ifs <;> norm_num

theorem rawGrid_nonneg (g : PhiGrid) (t : String) (j i : ℕ) : 0 ≤ g.rawGrid t j i := by
  unfold PhiGrid.rawGrid
  apply List.sum_nonneg
  intro a ha
  rw [List.mem_map] at ha
  obtain ⟨c, _, rfl⟩ := ha
  exact mul_nonneg (vastuZones_weight_pos t).le (Real.exp_pos _).le

theorem maskedGrid_nonneg (g : PhiGrid) (t : String) (j i : ℕ) : 0 ≤ g.maskedGrid t j i := by
  unfold PhiGrid.maskedGrid
  apply mul_nonneg (rawGrid_nonneg g t j i)
  split <;> norm_num

theorem foldl_max_init_le (l : List ℝ) (a : ℝ) : a ≤ l.foldl max a := by
  induction l generalizing a with
  | nil => exact le_refl a
  | cons x xs ih => exact le_trans (le_max_left a x) (ih (max a x))

theorem le_foldl_max (l : List ℝ) (a : ℝ) : ∀ x ∈ l, x ≤ l.foldl max a := by
  induction l generalizing a with
  | nil => intro x hx; simp at hx
  | cons y ys ih =>
    intro x hx
    rcases List.mem_cons.mp hx with rfl | hmem
    · exact le_trans (le_max_right a x) (foldl_max_init_le ys (max a x))
    · exact ih (max a y) x hmem

theorem gridMax_nonneg (g : PhiGrid) (t : String) : 0 ≤ g.gridMax t :=
  foldl_max_init_le _ 0

theorem maskedGrid_le_gridMax (g : PhiGrid) (t : String) (j i : ℕ)
    (hj : j < g.ny) (hi : i < g.nx) : g.maskedGrid t j i ≤ g.gridMax t := by
  apply le_foldl_max
  unfold PhiGrid.gridEntries
  rw [List.mem_flatMap]
  exact ⟨j, List.mem_range.mpr hj, List.mem_map.mpr ⟨i, List.mem_range.mpr hi, rfl⟩⟩

theorem finalGrid_nonneg (g : PhiGrid) (t : String) (j i : ℕ) : 0 ≤ g.finalGrid t j i := by
  unfold PhiGrid.finalGrid
  split
  · exact div_nonneg (maskedGrid_nonneg g t j i) (gridMax_nonneg g t)
  · exact maskedGrid_nonneg g t j i

theorem finalGrid_le_one (g : PhiGrid) (t : String) (j i : ℕ)
    (hj : j < g.ny) (hi : i < g.nx) : g.finalGrid t j i ≤ 1 := by
  unfold PhiGrid.finalGrid
  split
  · rename_i hpos
    rw [div_le_one hpos]
    exact maskedGrid_le_gridMax g t j i hj hi
  · rename_i hneg
    have h1 := maskedGrid_le_gridMax g t j i hj hi
    have h2 := maskedGrid_nonneg g t j i
    push_neg at hneg
    linarith

theorem clampIdx_lt (n : ℕ) (hn : 1 ≤ n) (z : ℤ) : clampIdx n z < n := by
  unfold clampIdx
  have h1 : min z ((n : ℤ) - 1) ≤ (n : ℤ) - 1 := min_le_right _ _
  have h2 : max 0 (min z ((n : ℤ) - 1)) ≤ (n : ℤ) - 1 := by
    apply max_le _ h1
    omega
  omega

theorem clampIdx_high (n : ℕ) (hn : 1 ≤ n) (z : ℤ) (hz : (n : ℤ) - 1 ≤ z) :
    clampIdx n z = n - 1 := by
  unfold clampIdx
  rw [min_eq_right hz]
  rw [max_eq_right (by omega : (0 : ℤ) ≤ (n : ℤ) - 1)]
  omega

theorem clampIdx_mid (n : ℕ) (z : ℤ) (h0 : 0 ≤ z) (h1 : z ≤ (n : ℤ) - 1) :
    clampIdx n z = z.toNat := by
  unfold clampIdx
  rw [min_eq_left h1, max_eq_right h0]

theorem collapse_x (g : PhiGrid) (x : ℝ) (hnx : 1 ≤ g.nx)
    (hx : (g.nx : ℤ) - 1 ≤ ⌊g.gxOf x⌋) :
    g.bi1 x = g.bi0 x ∧ g.bi0 x = g.nx - 1 := by
  have h0 : g.bi0 x = g.nx - 1 := clampIdx_high g.nx hnx _ hx
  have h1 : g.bi1 x = g.nx - 1 := clampIdx_high g.nx hnx _ (by omega)
  exact ⟨by rw [h0, h1], h0⟩

theorem collapse_y (g : PhiGrid) (y : ℝ) (hny : 1 ≤ g.ny)
    (hy : (g.ny : ℤ) - 1 ≤ ⌊g.gyOf y⌋) :
    g.bj1 y = g.bj0 y ∧ g.bj0 y = g.ny - 1 := by
  have h0 : g.bj0 y = g.ny - 1 := clampIdx_high g.ny hny _ hy
  have h1 : g.bj1 y = g.ny - 1 := clampIdx_high g.ny hny _ (by omega)
  exact ⟨by rw [h0, h1], h0⟩

theorem mid_x (g : PhiGrid) (x : ℝ) (hgx : 0 ≤ g.gxOf x)
    (hx : ⌊g.gxOf x⌋ < (g.nx : ℤ) - 1) :
    g.bi1 x = g.bi0 x + 1 ∧ g.bi0 x < g.nx ∧ g.bi1 x < g.nx ∧
      0 ≤ g.bwx x ∧ g.bwx x < 1 := by
  have hf0 : (0 : ℤ) ≤ ⌊g.gxOf x⌋ := Int.le_floor.mpr (by exact_mod_cast hgx)
  have h0 : g.bi0 x = ⌊g.gxOf x⌋.toNat := clampIdx_mid g.nx _ hf0 (by omega)
  have h1 : g.bi1 x = (⌊g.gxOf x⌋ + 1).toNat := clampIdx_mid g.nx _ (by omega) (by omega)
  have hcast : ((g.bi0 x : ℕ) : ℝ) = (⌊g.gxOf x⌋ : ℝ) := by
    rw [h0]
    exact_mod_cast congrArg (fun z : ℤ => (z : ℝ)) (Int.toNat_of_nonneg hf0)
  have hwx : g.bwx x = Int.fract (g.gxOf x) := by
    unfold PhiGrid.bwx Int.fract
    rw [hcast]
  refine ⟨by omega, by omega, by omega, ?_, ?_⟩
  · rw [hwx]; exact Int.fract_nonneg _
  · rw [hwx]; exact Int.fract_lt_one _

theorem mid_y (g : PhiGrid) (y : ℝ) (hgy : 0 ≤ g.gyOf y)
    (hy : ⌊g.gyOf y⌋ < (g.ny : ℤ) - 1) :
    g.bj1 y = g.bj0 y + 1 ∧ g.bj0 y < g.ny ∧ g.bj1 y < g.ny ∧
      0 ≤ g.bwy y ∧ g.bwy y < 1 := by
  have hf0 : (0 : ℤ) ≤ ⌊g.gyOf y⌋ := Int.le_floor.mpr (by exact_mod_cast hgy)
  have h0 : g.bj0 y = ⌊g.gyOf y⌋.toNat := clampIdx_mid g.ny _ hf0 (by omega)
  have h1 : g.bj1 y = (⌊g.gyOf y⌋ + 1).toNat := clampIdx_mid g.ny _ (by omega) (by omega)
  have hcast : ((g.bj0 y : ℕ) : ℝ) = (⌊g.gyOf y⌋ : ℝ) := by
    rw [h0]
    exact_mod_cast congrArg (fun z : ℤ => (z : ℝ)) (Int.toNat_of_nonneg hf0)
  have hwy : g.bwy y = Int.fract (g.gyOf y) := by
    unfold PhiGrid.bwy Int.fract
    rw [hcast]
  refine ⟨by omega, by omega, by omega, ?_, ?_⟩
  · rw [hwy]; exact Int.fract_nonneg _
  · rw [hwy]; exact Int.fract_lt_one _

theorem bilinear_bounds (g : PhiGrid) (grid : ℕ → ℕ → ℝ) (x y : ℝ)
    (hent0 : ∀ j i, 0 ≤ grid j i)
    (hent1 : ∀ j i, j < g.ny → i < g.nx → grid j i ≤ 1)
    (hnx : 1 ≤ g.nx) (hny : 1 ≤ g.ny)
    (hgx : 0 ≤ g.gxOf x) (hgy : 0 ≤ g.gyOf y) :
    0 ≤ g.bilinear grid x y ∧ g.bilinear grid x y ≤ 1 := by
  by_cases hx : (g.nx : ℤ) - 1 ≤ ⌊g.gxOf x⌋ <;> by_cases hy : (g.ny : ℤ) - 1 ≤ ⌊g.gyOf y⌋
  · obtain ⟨hi, hi0⟩ := collapse_x g x hnx hx
    obtain ⟨hj, hj0⟩ := collapse_y g y hny hy
    have hval : g.bilinear grid x y = grid (g.bj0 y) (g.bi0 x) := by
      unfold PhiGrid.bilinear
      rw [hi, hj]
      ring
    rw [hval]
    exact ⟨hent0 _ _, hent1 _ _ (by omega) (by omega)⟩
  · obtain ⟨hi, hi0⟩ := collapse_x g x hnx hx
    obtain ⟨hj, hj0, hj1, hwy0, hwy1⟩ := mid_y g y hgy (by omega)
    have hval : g.bilinear grid x y =
        (1 - g.bwy y) * grid (g.bj0 y) (g.bi0 x) + g.bwy y * grid (g.bj1 y) (g.bi0 x) := by
      unfold PhiGrid.bilinear
      rw [hi]
      ring
    rw [hval]
    have e0 := hent0 (g.bj0 y) (g.bi0 x)
    have e1 := hent0 (g.bj1 y) (g.bi0 x)
    have f0 := hent1 (g.bj0 y) (g.bi0 x) hj0 (by omega)
    have f1 := hent1 (g.bj1 y) (g.bi0 x) hj1 (by omega)
    constructor
    · have := mul_nonneg (by linarith : (0:ℝ) ≤ 1 - g.bwy y) e0
      have := mul_nonneg hwy0 e1
      linarith
    · nlinarith
  · obtain ⟨hj, hj0⟩ := collapse_y g y hny hy
    obtain ⟨hi, hi0, hi1, hwx0, hwx1⟩ := mid_x g x hgx (by omega)
    have hval : g.bilinear grid x y =
        (1 - g.bwx x) * grid (g.bj0 y) (g.bi0 x) + g.bwx x * grid (g.bj0 y) (g.bi1 x) := by
      unfold PhiGrid.bilinear
      rw [hj]
      ring
    rw [hval]
    have e0 := hent0 (g.bj0 y) (g.bi0 x)
    have e1 := hent0 (g.bj0 y) (g.bi1 x)
    have f0 := hent1 (g.bj0 y) (g.bi0 x) (by omega) hi0
    have f1 := hent1 (g.bj0 y) (g.bi1 x) (by omega) hi1
    constructor
    · have := mul_nonneg (by linarith : (0:ℝ) ≤ 1 - g.bwx x) e0
      have := mul_nonneg hwx0 e1
      linarith
    · nlinarith
  · obtain ⟨hi, hi0, hi1, hwx0, hwx1⟩ := mid_x g x hgx (by omega)
    obtain ⟨hj, hj0, hj1, hwy0, hwy1⟩ := mid_y g y hgy (by omega)
    have e00 := hent0 (g.bj0 y) (g.bi0 x)
    have e01 := hent0 (g.bj0 y) (g.bi1 x)
    have e10 := hent0 (g.bj1 y) (g.bi0 x)
    have e11 := hent0 (g.bj1 y) (g.bi1 x)
    have f00 := hent1 (g.bj0 y) (g.bi0 x) hj0 hi0
    have f01 := hent1 (g.bj0 y) (g.bi1 x) hj0 hi1
    have f10 := hent1 (g.bj1 y) (g.bi0 x) hj1 hi0
    have f11 := hent1 (g.bj1 y) (g.bi1 x) hj1 hi1
    have h1x : (0:ℝ) ≤ 1 - g.bwx x := by linarith
    have h1y : (0:ℝ) ≤ 1 - g.bwy y := by linarith
    unfold PhiGrid.bilinear
    constructor
    · have t00 := mul_nonneg (mul_nonneg h1x h1y) e00
      have t01 := mul_nonneg (mul_nonneg hwx0 h1y) e01
      have t10 := mul_nonneg (mul_nonneg h1x hwy0) e10
      have t11 := mul_nonneg (mul_nonneg hwx0 hwy0) e11
      linarith
    · have t00 := mul_nonneg (mul_nonneg h1x h1y) (sub_nonneg.mpr f00)
      have t01 := mul_nonneg (mul_nonneg hwx0 h1y) (sub_nonneg.mpr f01)
      have t10 := mul_nonneg (mul_nonneg h1x hwy0) (sub_nonneg.mpr f10)
      have t11 := mul_nonneg (mul_nonneg hwx0 hwy0) (sub_nonneg.mpr f11)
      nlinarith

/-- C5: for every constructed Vastu field whose grid is nonempty (the
resolution is positive and the bounding box is nondegenerate, so nx
and ny are at least 1) and whose containment test only accepts points
at or beyond the lower bounding-box corner, every sampled potential
sample_point(x, y, type) lies in [0, 1] -- including for types absent
from the grid map, which sample the neutral 0.5 -- and is exactly 0 at
every point outside the plot polygon. -/
theorem C5_phi_bounds (g : PhiGrid) (hres : 0 < g.res) (hnx : 1 ≤ g.nx) (hny : 1 ≤ g.ny)
    (hbb : ∀ p : ℝ × ℝ, g.containsB p = true → g.xmin ≤ p.1 ∧ g.ymin ≤ p.2) :
    ∀ (x y : ℝ) (t : String),
      (0 ≤ g.sample_point x y t ∧ g.sample_point x y t ≤ 1) ∧
      (g.containsB (x, y) = false → g.sample_point x y t = 0) := by
  intro x y t
  unfold PhiGrid.sample_point
  by_cases hc : g.containsB (x, y) = false
  · rw [if_pos hc]
    exact ⟨⟨le_refl 0, zero_le_one⟩, fun _ => rfl⟩
  · rw [if_neg hc]
    have hct : g.containsB (x, y) = true := by
      cases h : g.containsB (x, y)
      · exact absurd h hc
      · rfl
    have hbbp := hbb (x, y) hct
    have hgx : 0 ≤ g.gxOf x := div_nonneg (by linarith [hbbp.1]) hres.le
    have hgy : 0 ≤ g.gyOf y := div_nonneg (by linarith [hbbp.2]) hres.le
    refine ⟨?_, fun hfalse => absurd hfalse hc⟩
    by_cases ht : t ∈ g.roomTypes
    · rw [if_pos ht]
      exact bilinear_bounds g (g.finalGrid t) x y (finalGrid_nonneg g t)
        (finalGrid_le_one g t) hnx hny hgx hgy
    · rw [if_neg ht]
      norm_num

/-- A concrete Vastu field over the unit square bounding box used to
instantiate hypotheses of the field theorems. -/
def phiUnit : PhiGrid :=
  { containsB := fun _ => false, xmin := 0, ymin := 0, xmax := 1, ymax := 1,
    res := 1, sigma := 2, roomTypes := ["kitchen"] }

theorem phiUnit_nx : phiUnit.nx = 1 := by
  unfold PhiGrid.nx phiUnit
  norm_num

theorem phiUnit_ny : phiUnit.ny = 1 := by
  unfold PhiGrid.ny phiUnit
  norm_num

/-- Witness for C5_phi_bounds at the concrete field phiUnit and the
sample input (1/2, 1/2, kitchen). -/
theorem C5_phi_bounds_witness :
    (0 : ℝ) < phiUnit.res ∧ 1 ≤ phiUnit.nx ∧ 1 ≤ phiUnit.ny ∧
    (∀ p : ℝ × ℝ, phiUnit.containsB p = true → phiUnit.xmin ≤ p.1 ∧ phiUnit.ymin ≤ p.2) ∧
    ((0 ≤ phiUnit.sample_point (1/2) (1/2) "kitchen" ∧
        phiUnit.sample_point (1/2) (1/2) "kitchen" ≤ 1) ∧
      (phiUnit.containsB (1/2, 1/2) = false → phiUnit.sample_point (1/2) (1/2) "kitchen" = 0)) :=
  ⟨by norm_num [phiUnit], by rw [phiUnit_nx], by rw [phiUnit_ny],
    fun p h => absurd h (by simp [phiUnit]),
    C5_phi_bounds phiUnit (by norm_num [phiUnit]) (by rw [phiUnit_nx]) (by rw [phiUnit_ny])
      (fun p h => absurd h (by simp [phiUnit])) (1/2) (1/2) "kitchen"⟩

end PhiGridSection


section SASection

/-! Embedding of impl/sa_solver_impl.py and the parts of
impl/graph_solver_impl.py it uses (RoomState, SolverState,
SpatialIndex).  Shapely polygons are modelled by their exterior
coordinate rings; the shapely geometric kernels that the refiner only
invokes (intersection area, touch/containment predicates, distances,
areas, centroids, bounds) are supplied as an explicit structure of
functions, since shapely is an external library; affine operations
(translate, scale, rotate) have exact coordinate formulas and are
embedded directly.  The rtree branch of SpatialIndex is an optional
external fast path behind the same query contract; the grid fallback
is the code path embedded here. -/

/-- A shapely polygon, modelled by its exterior coordinate ring. -/
def ShPoly : Type := List (ℝ × ℝ)

/-- The shapely geometric kernels used by the refiner, as an explicit
collection of functions (shapely is an external dependency). -/
structure Shapely where
  interArea : ShPoly → ShPoly → ℝ
  intersects : ShPoly → ShPoly → Bool
  touches : ShPoly → ShPoly → Bool
  distPoly : ShPoly → ShPoly → ℝ
  containsPoly : ShPoly → ShPoly → Bool
  diffArea : ShPoly → ShPoly → ℝ
  area : ShPoly → ℝ
  centroid : ShPoly → ℝ × ℝ
  bounds : ShPoly → ℝ × ℝ × ℝ × ℝ
  containsPt : ShPoly → ℝ × ℝ → Bool

/-- shapely affinity.translate on the exterior ring. -/
def shTranslate (p : ShPoly) (dx dy : ℝ) : ShPoly :=
  List.map (fun q => (q.1 + dx, q.2 + dy)) p

/-- shapely affinity.scale about the centroid of the geometry. -/
def shScale (sh : Shapely) (p : ShPoly) (sx sy : ℝ) : ShPoly :=
  List.map (fun q => ((sh.centroid p).1 + sx * (q.1 - (sh.centroid p).1),
    (sh.centroid p).2 + sy * (q.2 - (sh.centroid p).2))) p

/-- shapely affinity.rotate about the centroid, angle in degrees. -/
noncomputable def shRotate (sh : Shapely) (p : ShPoly) (deg : ℝ) : ShPoly :=
  List.map (fun q => ((sh.centroid p).1 + Real.cos (deg * Real.pi / 180) * (q.1 - (sh.centroid p).1)
      - Real.sin (deg * Real.pi / 180) * (q.2 - (sh.centroid p).2),
    (sh.centroid p).2 + Real.sin (deg * Real.pi / 180) * (q.1 - (sh.centroid p).1)
      + Real.cos (deg * Real.pi / 180) * (q.2 - (sh.centroid p).2))) p

/-- Embedding of graph_solver_impl.RoomState. -/
structure RoomState where
  id : String
  type : String
  width : ℝ
  height : ℝ
  polygon : ShPoly
  theta : ℝ
  original_area : ℝ

/-- RoomState construction: the dataclass __post_init__ always
overwrites original_area with the area of the polygon passed in, even
when an original_area argument is given. -/
def mkRoomState (sh : Shapely) (id type : String) (w h : ℝ) (poly : ShPoly) (theta : ℝ) :
    RoomState :=
  { id := id, type := type, width := w, height := h, polygon := poly, theta := theta,
    original_area := sh.area poly }

/-- Embedding of RoomState.copy: a fresh RoomState with the same
field values; constructing it reruns __post_init__, so original_area
becomes the area of the current polygon (the passed value is
overwritten). -/
def RoomState.copy (sh : Shapely) (r : RoomState) : RoomState :=
  mkRoomState sh r.id r.type r.width r.height r.polygon r.theta

/-- Embedding of graph_solver_impl.SolverState (the metrics dict is
not populated by run_sa and is omitted). -/
structure SolverState where
  rooms : List RoomState
  iterations : ℕ := 0
  converged : Bool := false

/-- Python int(), truncation toward zero. -/
noncomputable def pyInt (x : ℝ) : ℤ := if 0 ≤ x then ⌊x⌋ else -⌊-x⌋

/-- The polygon of the room at an index (empty ring when out of
range; in the source an out-of-range index would raise). -/
def roomPolyAt (rooms : List RoomState) (i : ℕ) : ShPoly :=
  match rooms.get? i with
  | some r => r.polygon
  | none => ([] : List (ℝ × ℝ))

/-- Whether the integer cell rectangles of two bounding boxes (cells
of size gs, ranges [int(b0/gs), int(b2/gs)+1) per axis) share a cell;
this is exactly membership in the candidate set accumulated by the
grid-based SpatialIndex build and query loops. -/
noncomputable def cellsOverlapB (qb rb : ℝ × ℝ × ℝ × ℝ) (gs : ℝ) : Bool :=
  (max (pyInt (qb.1 / gs)) (pyInt (rb.1 / gs)) < min (pyInt (qb.2.2.1 / gs)) (pyInt (rb.2.2.1 / gs)) + 1) &&
  (max (pyInt (qb.2.1 / gs)) (pyInt (rb.2.1 / gs)) < min (pyInt (qb.2.2.2 / gs)) (pyInt (rb.2.2.2 / gs)) + 1)

/-- Embedding of SpatialIndex.query_overlaps with the grid built from
gridRooms and the final intersection filter applied against the live
list cur (in the source, the index holds a reference to the room list
it was built from, whose polygons may have been mutated since). -/
noncomputable def queryOverlapsGrid (sh : Shapely) (gridRooms cur : List RoomState)
    (gs : ℝ) (poly : ShPoly) : List ℕ :=
  (List.filter (fun pr =>
      cellsOverlapB (sh.bounds poly) (sh.bounds pr.2.polygon) gs &&
        sh.intersects poly (roomPolyAt cur pr.1))
    gridRooms.enum).map Prod.fst

/-- SpatialIndex.query_overlaps in the common case where the index is
fresh. -/
noncomputable def query_overlaps (sh : Shapely) (rooms : List RoomState) (gs : ℝ)
    (poly : ShPoly) : List ℕ :=
  queryOverlapsGrid sh rooms rooms gs poly

/-- Embedding of SpatialIndex.query_nearby: candidate cells of the
bounds expanded by the distance; no exact filter is applied. -/
noncomputable def query_nearby (sh : Shapely) (rooms : List RoomState) (gs : ℝ)
    (poly : ShPoly) (dist : ℝ) : List ℕ :=
  (List.filter (fun pr =>
      cellsOverlapB ((sh.bounds poly).1 - dist, (sh.bounds poly).2.1 - dist,
        (sh.bounds poly).2.2.1 + dist, (sh.bounds poly).2.2.2 + dist)
        (sh.bounds pr.2.polygon) gs)
    rooms.enum).map Prod.fst

/-- Embedding of sa_solver_impl.SAParams with its defaults. -/
structure SAParams where
  T0 : ℝ := 1
  alpha : ℝ := 0.995
  max_iters : ℕ := 3000
  stall_patience : ℕ := 300
  cooling_step : ℕ := 10
  local_repair_interval : ℕ := 100
  min_temp : ℝ := 0.001
  trans_sigma : ℝ := 0.5
  resize_min : ℝ := 0.9
  resize_max : ℝ := 1.1
  move_probs : Option (List (String × ℝ)) := none
  allow_rotations : Bool := false
  hop_radius : ℝ := 3
  grid_snap : ℝ := 0.01
  slide_steps : ℕ := 10
  slide_step : ℝ := 0.1
  overlap_tolerance : ℝ := 0.001
  lambda_overlap : ℝ := 100000
  lambda_vastu : ℝ := 1
  lambda_adjacency : ℝ := 0.8
  lambda_circulation : ℝ := 1.2
  lambda_boundary : ℝ := 2
  lambda_alignment : ℝ := 0.5
  lambda_area : ℝ := 0.7
  hard_violation_penalty : ℝ := 1000000

/-- The solver request dict as compute_energy and propose_move read
it: the plot polygon, the per-room optional target area entries, the
required adjacency map (dict with default []), and the minimum
circulation clearance (dict default 0.8). -/
structure SAReq where
  plot : ShPoly
  rooms : List (Option ℝ)
  adjacency : ℕ → List ℕ
  min_circulation : ℝ := 0.8

/-- All ordered pairs i < j of room indices (the enumeration order of
the nested pair loops of compute_energy). -/
def pairIdx (n : ℕ) : List (ℕ × ℕ) :=
  (List.range n).flatMap (fun i => ((List.range n).filter (fun j => i < j)).map (fun j => (i, j)))

/-- Room overlap term of compute_energy: for each room, every
spatial-index overlap hit other than itself contributes
lambda_overlap * max(0, overlap_area - tolerance); each unordered pair
is visited from both sides, as in the source loop. -/
noncomputable def overlapTerm (sh : Shapely) (params : SAParams) (rooms : List RoomState) : ℝ :=
  (rooms.enum.map (fun pr =>
    (((query_overlaps sh rooms 1 pr.2.polygon).filter (fun o => o ≠ pr.1)).map
      (fun o => params.lambda_overlap *
        pyMax 0 (sh.interArea pr.2.polygon (roomPolyAt rooms o) - params.overlap_tolerance))).sum)).sum

/-- Vastu term of compute_energy: energy -= lambda_vastu *
phi.sample_phi(centroid.x, centroid.y) for every room.  Note the
sample takes no room type. -/
noncomputable def vastuTerm (sh : Shapely) (params : SAParams) (phi : PhiGrid)
    (rooms : List RoomState) : ℝ :=
  -((rooms.map (fun r => params.lambda_vastu *
    phi.sample_phi (sh.centroid r.polygon).1 (sh.centroid r.polygon).2)).sum)

/-- Adjacency term of compute_energy over the pairs i < j. -/
noncomputable def adjacencyTerm (sh : Shapely) (req : SAReq) (params : SAParams)
    (rooms : List RoomState) : ℝ :=
  ((pairIdx rooms.length).map (fun pr =>
    if pr.2 ∈ req.adjacency pr.1 then
      (if sh.touches (roomPolyAt rooms pr.1) (roomPolyAt rooms pr.2) then 0
       else params.lambda_adjacency * sh.distPoly (roomPolyAt rooms pr.1) (roomPolyAt rooms pr.2))
    else
      (if sh.touches (roomPolyAt rooms pr.1) (roomPolyAt rooms pr.2) then
        params.lambda_adjacency * 0.1
       else 0))).sum

/-- Circulation term of compute_energy: every nearby-query hit o of a
room contributes when the polygon distance is below the clearance.
The source guard `room != other` compares a RoomState with an integer
index and is therefore always true (including o = i), which is
embedded faithfully by applying no filter. -/
noncomputable def circulationTerm (sh : Shapely) (req : SAReq) (params : SAParams)
    (rooms : List RoomState) : ℝ :=
  (rooms.map (fun room =>
    ((query_nearby sh rooms 1 room.polygon req.min_circulation).map (fun o =>
      if sh.distPoly room.polygon (roomPolyAt rooms o) < req.min_circulation then
        params.lambda_circulation *
          (req.min_circulation - sh.distPoly room.polygon (roomPolyAt rooms o))
      else 0)).sum)).sum

/-- Boundary containment term of compute_energy. -/
noncomputable def boundaryTerm (sh : Shapely) (req : SAReq) (params : SAParams)
    (rooms : List RoomState) : ℝ :=
  (rooms.map (fun room =>
    if sh.containsPoly req.plot room.polygon then 0
    else params.lambda_boundary * sh.diffArea room.polygon req.plot)).sum

/-- Area preservation term of compute_energy:
target = req['rooms'][i].get('area', room.original_area). -/
noncomputable def areaTerm (sh : Shapely) (req : SAReq) (params : SAParams)
    (rooms : List RoomState) : ℝ :=
  (rooms.enum.map (fun pr =>
    params.lambda_area * |sh.area pr.2.polygon -
      (((req.rooms.get? pr.1).join).getD pr.2.original_area)|)).sum

/-- Edges of a room polygon as rooms_have_aligned_edges reads them:
consecutive pairs of the exterior coordinate ring. -/
def edgesOfRing (p : ShPoly) : List ((ℝ × ℝ) × (ℝ × ℝ)) :=
  List.zip p p.tail

/-- Slope comparison of rooms_have_aligned_edges: both edges vertical
(run below 1e-9), or both slopes defined and within tolerance. -/
noncomputable def slopesAligned (e1 e2 : (ℝ × ℝ) × (ℝ × ℝ)) (tol : ℝ) : Bool :=
  if |e1.2.1 - e1.1.1| < 1 / 1000000000 then
    (if |e2.2.1 - e2.1.1| < 1 / 1000000000 then true else false)
  else if |e2.2.1 - e2.1.1| < 1 / 1000000000 then false
  else if |(e1.2.2 - e1.1.2) / (e1.2.1 - e1.1.1) - (e2.2.2 - e2.1.2) / (e2.2.1 - e2.1.1)| < tol
    then true else false

/-- Endpoint proximity test of rooms_have_aligned_edges. -/
noncomputable def edgesClose (e1 e2 : (ℝ × ℝ) × (ℝ × ℝ)) (tol : ℝ) : Bool :=
  if pyMin (pyMin |e1.1.2 - e2.1.2| |e1.2.2 - e2.2.2|)
      (pyMin |e1.1.1 - e2.1.1| |e1.2.1 - e2.2.1|) < tol then true else false

/-- Embedding of sa_solver_impl.rooms_have_aligned_edges with its
default tolerance 0.1. -/
noncomputable def rooms_have_aligned_edges (p1 p2 : ShPoly) : Bool :=
  (edgesOfRing p1).any (fun e1 => (edgesOfRing p2).any (fun e2 =>
    slopesAligned e1 e2 (1 / 10) && edgesClose e1 e2 (1 / 10)))

/-- Alignment term of compute_energy (only active for a positive
weight, as in the source guard). -/
noncomputable def alignTerm (sh : Shapely) (params : SAParams) (rooms : List RoomState) : ℝ :=
  if 0 < params.lambda_alignment then
    ((pairIdx rooms.length).map (fun pr =>
      if rooms_have_aligned_edges (roomPolyAt rooms pr.1) (roomPolyAt rooms pr.2) then
        -params.lambda_alignment
      else 0)).sum
  else 0

/-- Embedding of sa_solver_impl.compute_energy: the loop accumulator
is reassociated into the sum of the per-term sums. -/
noncomputable def compute_energy (sh : Shapely) (req : SAReq) (phi : PhiGrid)
    (params : SAParams) (rooms : List RoomState) : ℝ :=
  overlapTerm sh params rooms + vastuTerm sh params phi rooms +
    adjacencyTerm sh req params rooms + circulationTerm sh req params rooms +
    boundaryTerm sh req params rooms + areaTerm sh req params rooms +
    alignTerm sh params rooms

end SASection

section RngSection

/-- The numpy global random generator, modelled as a deterministic
stream of real draws with a cursor.  Each numpy sampling call consumes
one draw and transforms it into its range; np.random.seed replaces the
whole state.  This captures exactly what the determinism claims need:
the generator is deterministic state, not ambient nondeterminism. -/
structure Rng where
  stream : ℕ → ℝ
  pos : ℕ

/-- Consume one raw draw (a value in [0,1) for a well-formed state). -/
def Rng.next (g : Rng) : ℝ × Rng :=
  (g.stream g.pos, { g with pos := g.pos + 1 })

/-- np.random.uniform(a, b). -/
def nextUniform (a b : ℝ) (g : Rng) : ℝ × Rng :=
  ((g.next).1 * (b - a) + a, (g.next).2)

/-- np.random.normal(mu, sigma): mu + sigma times a standard normal
variate derived deterministically from the stream. -/
def nextNormal (mu sigma : ℝ) (g : Rng) : ℝ × Rng :=
  (mu + sigma * (g.next).1, (g.next).2)

/-- np.random.random(). -/
def nextRandom (g : Rng) : ℝ × Rng := g.next

/-- np.random.randint(n): a value in [0, n) for n >= 1 (numpy raises
for n = 0). -/
noncomputable def nextRandint (n : ℕ) (g : Rng) : ℕ × Rng :=
  (min (n - 1) (⌊(g.next).1 * n⌋).toNat, (g.next).2)

/-- Inverse-CDF walk used to model np.random.choice with weights. -/
noncomputable def pickByCdf : List (String × ℝ) → ℝ → ℝ → String
  | [], _, _ => ""
  | [(k, _)], _, _ => k
  | (k, p) :: rest, u, acc => if u < acc + p then k else pickByCdf rest u (acc + p)

/-- np.random.choice(keys, p=probs). -/
noncomputable def nextChoice (items : List (String × ℝ)) (g : Rng) : String × Rng :=
  (pickByCdf items (g.next).1 0, (g.next).2)

theorem nextRandint_lt (n : ℕ) (hn : 1 ≤ n) (g : Rng) : (nextRandint n g).1 < n := by
  unfold nextRandint
  simp only
  omega

end RngSection

section MovesSection

/-- The default move probabilities dict of propose_move in insertion
order. -/
def defaultMoveProbs (allow : Bool) : List (String × ℝ) :=
  [("translate", 0.5), ("rotate", if allow then 0.1 else 0), ("resize", 0.2),
    ("vastu_hop", 0.1), ("align", 0.1)]

/-- Effective move probabilities: the source replaces a missing or
falsy (empty) params.move_probs with the defaults. -/
def effMoveProbs (params : SAParams) : List (String × ℝ) :=
  match params.move_probs with
  | none => defaultMoveProbs params.allow_rotations
  | some l => if l.isEmpty then defaultMoveProbs params.allow_rotations else l

/-- Embedding of closest_points_on_polygons: centroids when the
polygons intersect, otherwise the first vertex pair achieving the
minimum distance (distances compared as squares, which preserves the
selection). -/
noncomputable def closest_points_on_polygons (sh : Shapely) (p1 p2 : ShPoly) :
    (ℝ × ℝ) × (ℝ × ℝ) :=
  if sh.intersects p1 p2 then (sh.centroid p1, sh.centroid p2)
  else
    ((p1.flatMap (fun a => p2.map (fun b => (a, b)))).foldl
      (fun (acc : ((ℝ × ℝ) × (ℝ × ℝ)) × Option ℝ) pr =>
        match acc.2 with
        | none => (pr, some (sqDist pr.1 pr.2))
        | some m => if sqDist pr.1 pr.2 < m then (pr, some (sqDist pr.1 pr.2)) else acc)
      (((0, 0), (0, 0)), none)).1

/-- The vastu_hop retry loop: up to 10 uniform draws in the plot
bounding box; on the first draw inside the plot, translate the room
centroid there and stop. -/
noncomputable def vastuHop (sh : Shapely) (plot : ShPoly) (poly : ShPoly) :
    ℕ → Rng → ShPoly × Rng
  | 0, g => (poly, g)
  | fuel + 1, g =>
    match nextUniform (sh.bounds plot).1 (sh.bounds plot).2.2.1 g with
    | (x, g1) =>
      match nextUniform (sh.bounds plot).2.1 (sh.bounds plot).2.2.2 g1 with
      | (y, g2) =>
        if sh.containsPt plot (x, y) then
          (shTranslate poly (x - (sh.centroid poly).1) (y - (sh.centroid poly).2), g2)
        else vastuHop sh plot poly fuel g2

/-- The align move: take the first nearby-query hit other than the
selected room (the candidate list is in ascending index order, the
iteration order of a CPython set of small ints) and slide one step
toward the closest point pair. -/
noncomputable def alignMove (sh : Shapely) (current : List RoomState) (k : ℕ)
    (roomPoly : ShPoly) (params : SAParams) : ShPoly :=
  match (query_nearby sh current 1 roomPoly (params.slide_step * 2)).filter (fun o => o ≠ k) with
  | [] => roomPoly
  | o :: _ =>
    if 1 / 100000000 <
        Real.sqrt (((closest_points_on_polygons sh roomPoly (roomPolyAt current o)).2.1 -
            (closest_points_on_polygons sh roomPoly (roomPolyAt current o)).1.1) ^ 2 +
          ((closest_points_on_polygons sh roomPoly (roomPolyAt current o)).2.2 -
            (closest_points_on_polygons sh roomPoly (roomPolyAt current o)).1.2) ^ 2) then
      shTranslate roomPoly
        (((closest_points_on_polygons sh roomPoly (roomPolyAt current o)).2.1 -
            (closest_points_on_polygons sh roomPoly (roomPolyAt current o)).1.1) /
          Real.sqrt (((closest_points_on_polygons sh roomPoly (roomPolyAt current o)).2.1 -
              (closest_points_on_polygons sh roomPoly (roomPolyAt current o)).1.1) ^ 2 +
            ((closest_points_on_polygons sh roomPoly (roomPolyAt current o)).2.2 -
              (closest_points_on_polygons sh roomPoly (roomPolyAt current o)).1.2) ^ 2) *
          params.slide_step)
        (((closest_points_on_polygons sh roomPoly (roomPolyAt current o)).2.2 -
            (closest_points_on_polygons sh roomPoly (roomPolyAt current o)).1.2) /
          Real.sqrt (((closest_points_on_polygons sh roomPoly (roomPolyAt current o)).2.1 -
              (closest_points_on_polygons sh roomPoly (roomPolyAt current o)).1.1) ^ 2 +
            ((closest_points_on_polygons sh roomPoly (roomPolyAt current o)).2.2 -
              (closest_points_on_polygons sh roomPoly (roomPolyAt current o)).1.2) ^ 2) *
          params.slide_step)
    else roomPoly

/-- Replace the polygon of the room at index k (attribute assignment
on the list entry; __post_init__ does not rerun, so original_area is
left at the value recorded when the entry was constructed). -/
def setPolyAt (l : List RoomState) (k : ℕ) (poly : ShPoly) : List RoomState :=
  match l.get? k with
  | none => l
  | some r => l.set k { r with polygon := poly }

/-- The geometric move of propose_move for the selected room, chosen
by the drawn move key; an unknown key (possible with caller-supplied
move_probs) leaves the polygon unchanged. -/
noncomputable def applyMove (sh : Shapely) (current : List RoomState) (req : SAReq)
    (params : SAParams) (k : ℕ) (roomPoly : ShPoly) (move : String) (g : Rng) :
    ShPoly × Rng :=
  if move = "translate" then
    match nextNormal 0 params.trans_sigma g with
    | (dx, ga) =>
      match nextNormal 0 params.trans_sigma ga with
      | (dy, gb) => (shTranslate roomPoly dx dy, gb)
  else if move = "rotate" && params.allow_rotations then
    match nextNormal 0 (Real.pi / 6) g with
    | (ang, ga) => (shRotate sh roomPoly (ang * 180 / Real.pi), ga)
  else if move = "resize" then
    match nextUniform params.resize_min params.resize_max g with
    | (sx, ga) => (shScale sh roomPoly sx (1 / sx), ga)
  else if move = "vastu_hop" then
    vastuHop sh req.plot roomPoly 10 g
  else if move = "align" then
    (alignMove sh current k roomPoly params, g)
  else (roomPoly, g)

/-- The move probabilities after the normalization step of
propose_move (uniform fallback when the weights sum to zero or less). -/
noncomputable def normMoveProbs (params : SAParams) : List (String × ℝ) :=
  if ((effMoveProbs params).map Prod.snd).sum ≤ 0 then
    (effMoveProbs params).map (fun pr => (pr.1, 1 / ((effMoveProbs params).length : ℝ)))
  else
    (effMoveProbs params).map (fun pr => (pr.1, pr.2 / ((effMoveProbs params).map Prod.snd).sum))

/-- Conditional grid snap applied after any move. -/
noncomputable def snapIf (params : SAParams) (p : ShPoly) : ShPoly :=
  if 0 < params.grid_snap then snap_to_grid p params.grid_snap else p

/-- Embedding of sa_solver_impl.propose_move: copy the state, pick a
room uniformly (np.random.randint first), pick a move key by the
normalized move probabilities (np.random.choice second), apply the
move to the selected room of the copied list, and snap that room to
the grid.  Only the polygon of the selected entry is reassigned;
attribute assignment does not rerun __post_init__, so the entry keeps
the original_area its copy recorded. -/
noncomputable def propose_move (sh : Shapely) (current : List RoomState) (req : SAReq)
    (params : SAParams) (g : Rng) : List RoomState × Rng :=
  (setPolyAt (current.map (RoomState.copy sh)) (nextRandint current.length g).1
    (snapIf params
      (applyMove sh current req params (nextRandint current.length g).1
        (roomPolyAt (current.map (RoomState.copy sh)) (nextRandint current.length g).1)
        (nextChoice (normMoveProbs params) (nextRandint current.length g).2).1
        (nextChoice (normMoveProbs params) (nextRandint current.length g).2).2).1),
   (applyMove sh current req params (nextRandint current.length g).1
     (roomPolyAt (current.map (RoomState.copy sh)) (nextRandint current.length g).1)
     (nextChoice (normMoveProbs params) (nextRandint current.length g).2).1
     (nextChoice (normMoveProbs params) (nextRandint current.length g).2).2).2)

/-- The while-loop that pulls an escaped room back toward the plot
centroid; the scale shrinks geometrically from 0.9 below the 0.1
cutoff within 22 iterations, so fuel 100 is never exhausted before
the loop condition fails. -/
noncomputable def reenter (sh : Shapely) (boundary : ShPoly) (dx dy : ℝ) :
    ℕ → ℝ → ShPoly → ShPoly
  | 0, _, poly => poly
  | fuel + 1, scale, poly =>
    if ¬ (sh.containsPoly boundary poly = true) ∧ 1 / 10 < scale then
      reenter sh boundary dx dy fuel (scale * (9 / 10))
        (shTranslate poly (-dx * (1 - scale)) (-dy * (1 - scale)))
    else poly

/-- The per-room overlap-repulsion update of
deterministic_local_improve, for the room at index i against the live
list cur, with the spatial grid built from the snapshot taken before
the loop. -/
noncomputable def liRepulse (sh : Shapely) (params : SAParams)
    (snapshot cur : List RoomState) (i : ℕ) : List RoomState :=
  match cur.get? i with
  | none => cur
  | some room =>
    match queryOverlapsGrid sh snapshot cur 1 room.polygon with
    | [] => cur
    | overlaps =>
      let rep := (overlaps.map (fun j =>
        if j ≠ i then
          (if 0 < Real.sqrt (((sh.centroid room.polygon).1 - (sh.centroid (roomPolyAt cur j)).1) ^ 2 +
              ((sh.centroid room.polygon).2 - (sh.centroid (roomPolyAt cur j)).2) ^ 2) then
            ((((sh.centroid room.polygon).1 - (sh.centroid (roomPolyAt cur j)).1) /
                Real.sqrt (((sh.centroid room.polygon).1 - (sh.centroid (roomPolyAt cur j)).1) ^ 2 +
                  ((sh.centroid room.polygon).2 - (sh.centroid (roomPolyAt cur j)).2) ^ 2)) *
              pyMin (sh.interArea room.polygon (roomPolyAt cur j)) params.slide_step,
             (((sh.centroid room.polygon).2 - (sh.centroid (roomPolyAt cur j)).2) /
                Real.sqrt (((sh.centroid room.polygon).1 - (sh.centroid (roomPolyAt cur j)).1) ^ 2 +
                  ((sh.centroid room.polygon).2 - (sh.centroid (roomPolyAt cur j)).2) ^ 2)) *
              pyMin (sh.interArea room.polygon (roomPolyAt cur j)) params.slide_step)
          else (0, 0))
        else (0, 0))).foldl (fun a b => (a.1 + b.1, a.2 + b.2)) (0, 0)
      if rep.1 ≠ 0 ∨ rep.2 ≠ 0 then
        setPolyAt cur i (shTranslate room.polygon rep.1 rep.2)
      else cur

/-- Embedding of sa_solver_impl.deterministic_local_improve: copy,
resolve overlaps by repulsion, snap to grid, then pull escaped rooms
back inside the boundary. -/
noncomputable def deterministic_local_improve (sh : Shapely) (req : SAReq) (phi : PhiGrid)
    (params : SAParams) (state : List RoomState) : List RoomState :=
  let improved := state.map (RoomState.copy sh)
  let afterRep := (List.range improved.length).foldl (liRepulse sh params improved) improved
  let afterSnap := if 0 < params.grid_snap then
      afterRep.map (fun r => { r with polygon := snap_to_grid r.polygon params.grid_snap })
    else afterRep
  afterSnap.map (fun room =>
    if sh.containsPoly req.plot room.polygon then room
    else { room with
      polygon := (reenter sh req.plot
        ((sh.centroid room.polygon).1 - (sh.centroid req.plot).1)
        ((sh.centroid room.polygon).2 - (sh.centroid req.plot).2)
        100 (9 / 10) room.polygon) })

end MovesSection

section RunSASection

/-- The loop state of run_sa: the current and best layouts with their
energies, the temperature, the iteration and stall counters, and the
random generator state. -/
structure SALoop where
  cur : List RoomState
  curE : ℝ
  best : List RoomState
  bestE : ℝ
  temp : ℝ
  iter : ℕ
  stall : ℕ
  rng : Rng

/-- The periodic local-repair phase of a run_sa iteration. -/
noncomputable def saRepair (sh : Shapely) (req : SAReq) (phi : PhiGrid) (params : SAParams)
    (s : SALoop) : SALoop :=
  if s.iter % params.local_repair_interval = 0 then
    (if compute_energy sh req phi params (deterministic_local_improve sh req phi params s.cur) <
        s.bestE then
      { s with
          cur := deterministic_local_improve sh req phi params s.cur,
          curE := compute_energy sh req phi params (deterministic_local_improve sh req phi params s.cur),
          best := (deterministic_local_improve sh req phi params s.cur).map (RoomState.copy sh),
          bestE := compute_energy sh req phi params (deterministic_local_improve sh req phi params s.cur),
          stall := 0 }
    else
      { s with
          cur := deterministic_local_improve sh req phi params s.cur,
          curE := compute_energy sh req phi params (deterministic_local_improve sh req phi params s.cur) })
  else s

/-- Acceptance of a candidate: it becomes the current state, and the
best-seen layout is refreshed when the energy strictly improves
(stall resets only then). -/
noncomputable def saAccept (sh : Shapely) (req : SAReq) (phi : PhiGrid) (params : SAParams)
    (s1 : SALoop) (cand : List RoomState) (g2 : Rng) : SALoop :=
  if compute_energy sh req phi params cand < s1.bestE then
    { s1 with
        cur := cand,
        curE := compute_energy sh req phi params cand,
        best := cand.map (RoomState.copy sh),
        bestE := compute_energy sh req phi params cand,
        stall := 0,
        rng := g2 }
  else
    { s1 with
        cur := cand,
        curE := compute_energy sh req phi params cand,
        stall := s1.stall + 1,
        rng := g2 }

/-- Candidate proposal and Metropolis acceptance: the uniform draw
happens only when the energy did not strictly improve, matching the
Python short-circuit of `delta_e < 0 or np.random.random() < ...`. -/
noncomputable def saMetro (sh : Shapely) (req : SAReq) (phi : PhiGrid) (params : SAParams)
    (s1 : SALoop) : SALoop :=
  if compute_energy sh req phi params (propose_move sh s1.cur req params s1.rng).1 - s1.curE
      < 0 then
    saAccept sh req phi params s1 (propose_move sh s1.cur req params s1.rng).1
      (propose_move sh s1.cur req params s1.rng).2
  else if (nextRandom (propose_move sh s1.cur req params s1.rng).2).1 <
      Real.exp (-(compute_energy sh req phi params (propose_move sh s1.cur req params s1.rng).1
        - s1.curE) / s1.temp) then
    saAccept sh req phi params s1 (propose_move sh s1.cur req params s1.rng).1
      (nextRandom (propose_move sh s1.cur req params s1.rng).2).2
  else
    { s1 with
        stall := s1.stall + 1,
        rng := (nextRandom (propose_move sh s1.cur req params s1.rng).2).2 }

/-- One iteration of the run_sa while-loop: periodic local repair,
proposal and Metropolis acceptance, geometric cooling every
cooling_step iterations, iteration counter increment. -/
noncomputable def saBody (sh : Shapely) (req : SAReq) (phi : PhiGrid) (params : SAParams)
    (s : SALoop) : SALoop :=
  { (if (saRepair sh req phi params s).iter % params.cooling_step = 0 then
      { saMetro sh req phi params (saRepair sh req phi params s) with
          temp := (saMetro sh req phi params (saRepair sh req phi params s)).temp * params.alpha }
    else saMetro sh req phi params (saRepair sh req phi params s)) with
      iter := (saRepair sh req phi params s).iter + 1 }

/-- The run_sa while-loop as fuel recursion; the fuel is the
remaining iteration budget, so the loop runs while the stall patience
is not exhausted and the iteration count is below max_iters. -/
noncomputable def saLoop (sh : Shapely) (req : SAReq) (phi : PhiGrid) (params : SAParams) :
    ℕ → SALoop → SALoop
  | 0, s => s
  | fuel + 1, s =>
    if s.stall < params.stall_patience then
      saLoop sh req phi params fuel (saBody sh req phi params s)
    else s

/-- The initial loop state of run_sa: a fresh copy of the input rooms,
its energy as both current and best energy, and the initial
temperature (best = current.copy() is a shallow list copy and is
value-equal to the current list). -/
noncomputable def saInit (sh : Shapely) (req : SAReq) (phi : PhiGrid) (params : SAParams)
    (initial : SolverState) (g : Rng) : SALoop :=
  { cur := initial.rooms.map (RoomState.copy sh),
    curE := compute_energy sh req phi params (initial.rooms.map (RoomState.copy sh)),
    best := initial.rooms.map (RoomState.copy sh),
    bestE := compute_energy sh req phi params (initial.rooms.map (RoomState.copy sh)),
    temp := params.T0, iter := 0, stall := 0, rng := g }

/-- Embedding of sa_solver_impl.run_sa: run the annealing loop and
return the best-seen layout (the final generator state is returned
alongside, modelling the mutated numpy global state). -/
noncomputable def run_sa (sh : Shapely) (initial : SolverState) (req : SAReq) (phi : PhiGrid)
    (paramsOpt : Option SAParams) (g : Rng) : SolverState × Rng :=
  let params := paramsOpt.getD {}
  let sfin := saLoop sh req phi params params.max_iters (saInit sh req phi params initial g)
  ({ rooms := sfin.best }, sfin.rng)

theorem copy_polygon (sh : Shapely) (r : RoomState) :
    (RoomState.copy sh r).polygon = r.polygon := rfl

theorem copy_original_area (sh : Shapely) (r : RoomState) :
    (RoomState.copy sh r).original_area = sh.area r.polygon := rfl

theorem roomPolyAt_copy (sh : Shapely) (rooms : List RoomState) (i : ℕ) :
    roomPolyAt (rooms.map (RoomState.copy sh)) i = roomPolyAt rooms i := by
  unfold roomPolyAt
  rw [List.get?_map]
  cases rooms.get? i <;> rfl

theorem enum_copy (sh : Shapely) (rooms : List RoomState) :
    (rooms.map (RoomState.copy sh)).enum = rooms.enum.map (Prod.map id (RoomState.copy sh)) :=
  List.enum_map rooms (RoomState.copy sh)

theorem queryOverlapsGrid_copy (sh : Shapely) (rooms cur : List RoomState) (gs : ℝ) (poly : ShPoly) :
    queryOverlapsGrid sh (rooms.map (RoomState.copy sh)) (cur.map (RoomState.copy sh)) gs poly =
      queryOverlapsGrid sh rooms cur gs poly := by
  unfold queryOverlapsGrid
  rw [enum_copy, List.filter_map, List.map_map]
  congr 1
  apply List.filter_congr
  intro pr _
  rw [Function.comp_apply]
  have h1 : (Prod.map id (RoomState.copy sh) pr).2.polygon = pr.2.polygon := rfl
  have h2 : (Prod.map id (RoomState.copy sh) pr).1 = pr.1 := rfl
  rw [h1, h2, roomPolyAt_copy]

theorem query_overlaps_copy (sh : Shapely) (rooms : List RoomState) (gs : ℝ) (poly : ShPoly) :
    query_overlaps sh (rooms.map (RoomState.copy sh)) gs poly =
      query_overlaps sh rooms gs poly :=
  queryOverlapsGrid_copy sh rooms rooms gs poly

theorem query_nearby_copy (sh : Shapely) (rooms : List RoomState) (gs : ℝ) (poly : ShPoly)
    (dist : ℝ) :
    query_nearby sh (rooms.map (RoomState.copy sh)) gs poly dist =
      query_nearby sh rooms gs poly dist := by
  unfold query_nearby
  rw [enum_copy, List.filter_map, List.map_map]
  rfl

theorem overlapTerm_copy (sh : Shapely) (params : SAParams) (rooms : List RoomState) :
    overlapTerm sh params (rooms.map (RoomState.copy sh)) = overlapTerm sh params rooms := by
  unfold overlapTerm
  rw [enum_copy, List.map_map]
  congr 1
  apply List.map_congr_left
  intro pr _
  rw [Function.comp_apply]
  have h1 : (Prod.map id (RoomState.copy sh) pr).2.polygon = pr.2.polygon := rfl
  have h2 : (Prod.map id (RoomState.copy sh) pr).1 = pr.1 := rfl
  rw [h1, h2, query_overlaps_copy]
  congr 1
  apply List.map_congr_left
  intro o _
  rw [roomPolyAt_copy]

theorem vastuTerm_copy (sh : Shapely) (params : SAParams) (phi : PhiGrid)
    (rooms : List RoomState) :
    vastuTerm sh params phi (rooms.map (RoomState.copy sh)) = vastuTerm sh params phi rooms := by
  unfold vastuTerm
  rw [List.map_map]
  rfl

theorem adjacencyTerm_copy (sh : Shapely) (req : SAReq) (params : SAParams)
    (rooms : List RoomState) :
    adjacencyTerm sh req params (rooms.map (RoomState.copy sh)) =
      adjacencyTerm sh req params rooms := by
  unfold adjacencyTerm
  rw [List.length_map]
  congr 1
  apply List.map_congr_left
  intro pr _
  rw [roomPolyAt_copy, roomPolyAt_copy]

theorem circulationTerm_copy (sh : Shapely) (req : SAReq) (params : SAParams)
    (rooms : List RoomState) :
    circulationTerm sh req params (rooms.map (RoomState.copy sh)) =
      circulationTerm sh req params rooms := by
  unfold circulationTerm
  rw [List.map_map]
  congr 1
  apply List.map_congr_left
  intro r _
  rw [Function.comp_apply]
  have h1 : (RoomState.copy sh r).polygon = r.polygon := rfl
  rw [h1, query_nearby_copy]
  congr 1
  apply List.map_congr_left
  intro o _
  rw [roomPolyAt_copy]

theorem boundaryTerm_copy (sh : Shapely) (req : SAReq) (params : SAParams)
    (rooms : List RoomState) :
    boundaryTerm sh req params (rooms.map (RoomState.copy sh)) =
      boundaryTerm sh req params rooms := by
  unfold boundaryTerm
  rw [List.map_map]
  rfl

theorem alignTerm_copy (sh : Shapely) (params : SAParams) (rooms : List RoomState) :
    alignTerm sh params (rooms.map (RoomState.copy sh)) = alignTerm sh params rooms := by
  unfold alignTerm
  rw [List.length_map]
  split
  · congr 1
    apply List.map_congr_left
    intro pr _
    rw [roomPolyAt_copy, roomPolyAt_copy]
  · rfl

theorem areaTerm_copy_le (sh : Shapely) (req : SAReq) (params : SAParams)
    (rooms : List RoomState) (hl : 0 ≤ params.lambda_area) :
    areaTerm sh req params (rooms.map (RoomState.copy sh)) ≤ areaTerm sh req params rooms := by
  unfold areaTerm
  rw [enum_copy, List.map_map]
  apply List.sum_le_sum
  intro pr _
  rw [Function.comp_apply]
  have h1 : (Prod.map id (RoomState.copy sh) pr).2.polygon = pr.2.polygon := rfl
  have h2 : (Prod.map id (RoomState.copy sh) pr).1 = pr.1 := rfl
  have h3 : (Prod.map id (RoomState.copy sh) pr).2.original_area = sh.area pr.2.polygon := rfl
  rw [h1, h2, h3]
  cases hopt : ((req.rooms.get? pr.1).join) with
  | some a => simp [Option.getD]
  | none =>
    simp only [Option.getD_none]
    rw [sub_self, abs_zero, mul_zero]
    exact mul_nonneg hl (abs_nonneg _)

theorem compute_energy_copy_le (sh : Shapely) (req : SAReq) (phi : PhiGrid) (params : SAParams)
    (rooms : List RoomState) (hl : 0 ≤ params.lambda_area) :
    compute_energy sh req phi params (rooms.map (RoomState.copy sh)) ≤
      compute_energy sh req phi params rooms := by
  unfold compute_energy
  rw [overlapTerm_copy, vastuTerm_copy, adjacencyTerm_copy, circulationTerm_copy,
    boundaryTerm_copy, alignTerm_copy]
  have := areaTerm_copy_le sh req params rooms hl
  linarith

/-- The loop invariant of run_sa: curE is the energy of the current
layout, the stored best layout has energy at most bestE, and bestE is
at most the current energy and at most the initial energy. -/
def SAInv (sh : Shapely) (req : SAReq) (phi : PhiGrid) (params : SAParams) (E0 : ℝ)
    (s : SALoop) : Prop :=
  s.curE = compute_energy sh req phi params s.cur ∧
  compute_energy sh req phi params s.best ≤ s.bestE ∧
  s.bestE ≤ s.curE ∧ s.bestE ≤ E0

theorem saRepair_inv (sh : Shapely) (req : SAReq) (phi : PhiGrid) (params : SAParams)
    (E0 : ℝ) (s : SALoop) (hl : 0 ≤ params.lambda_area) (h : SAInv sh req phi params E0 s) :
    SAInv sh req phi params E0 (saRepair sh req phi params s) := by
  obtain ⟨h1, h2, h3, h4⟩ := h
  unfold saRepair
  split
  · split
    · rename_i himp
      refine ⟨rfl, ?_, le_refl _, by linarith⟩
      exact compute_energy_copy_le sh req phi params _ hl
    · rename_i himp
      push_neg at himp
      exact ⟨rfl, h2, himp, h4⟩
  · exact ⟨h1, h2, h3, h4⟩

theorem saAccept_inv (sh : Shapely) (req : SAReq) (phi : PhiGrid) (params : SAParams)
    (E0 : ℝ) (s1 : SALoop) (cand : List RoomState) (g2 : Rng)
    (hl : 0 ≤ params.lambda_area) (h : SAInv sh req phi params E0 s1) :
    SAInv sh req phi params E0 (saAccept sh req phi params s1 cand g2) := by
  obtain ⟨h1, h2, h3, h4⟩ := h
  unfold saAccept
  split
  · rename_i himp
    refine ⟨rfl, compute_energy_copy_le sh req phi params _ hl, le_refl _, by linarith⟩
  · rename_i himp
    push_neg at himp
    exact ⟨rfl, h2, himp, h4⟩

theorem saMetro_inv (sh : Shapely) (req : SAReq) (phi : PhiGrid) (params : SAParams)
    (E0 : ℝ) (s1 : SALoop) (hl : 0 ≤ params.lambda_area)
    (h : SAInv sh req phi params E0 s1) :
    SAInv sh req phi params E0 (saMetro sh req phi params s1) := by
  unfold saMetro
  split
  · exact saAccept_inv sh req phi params E0 s1 _ _ hl h
  · split
    · exact saAccept_inv sh req phi params E0 s1 _ _ hl h
    · exact h

theorem saBody_inv (sh : Shapely) (req : SAReq) (phi : PhiGrid) (params : SAParams)
    (E0 : ℝ) (s : SALoop) (hl : 0 ≤ params.lambda_area)
    (h : SAInv sh req phi params E0 s) :
    SAInv sh req phi params E0 (saBody sh req phi params s) := by
  have h1 := saMetro_inv sh req phi params E0 _ hl
    (saRepair_inv sh req phi params E0 s hl h)
  unfold saBody
  split
  · exact h1
  · exact h1

theorem saLoop_inv (sh : Shapely) (req : SAReq) (phi : PhiGrid) (params : SAParams)
    (E0 : ℝ) (hl : 0 ≤ params.lambda_area) :
    ∀ (fuel : ℕ) (s : SALoop), SAInv sh req phi params E0 s →
      SAInv sh req phi params E0 (saLoop sh req phi params fuel s) := by
  intro fuel
  induction fuel with
  | zero => intro s h; exact h
  | succ n ih =>
    intro s h
    unfold saLoop
    split
    · exact ih _ (saBody_inv sh req phi params E0 s hl h)
    · exact h

theorem saInit_inv (sh : Shapely) (req : SAReq) (phi : PhiGrid) (params : SAParams)
    (initial : SolverState) (g : Rng) :
    SAInv sh req phi params
      (compute_energy sh req phi params (initial.rooms.map (RoomState.copy sh)))
      (saInit sh req phi params initial g) :=
  ⟨rfl, le_refl _, le_refl _, le_refl _⟩

/-- C3: the refiner improves monotonically and returns the best-seen
layout.  For every geometric kernel, request, Vastu field, parameter
setting with a nonnegative area weight, initial layout and generator
state (restricted to inputs on which the Python code does not raise:
a nonempty room list and nonzero modulus parameters), the layout
returned by run_sa has energy at most the energy of the input layout
under the same energy function, and it is the best variable of the
annealing loop, whose energy is also at most that of the final
current layout (best-seen, not last). -/
theorem C3_sa_monotone (sh : Shapely) (initial : SolverState) (req : SAReq) (phi : PhiGrid)
    (paramsOpt : Option SAParams) (g : Rng)
    (hrooms : initial.rooms ≠ [])
    (hrep : 0 < (paramsOpt.getD {}).local_repair_interval)
    (hcool : 0 < (paramsOpt.getD {}).cooling_step)
    (harea : 0 ≤ (paramsOpt.getD {}).lambda_area) :
    compute_energy sh req phi (paramsOpt.getD {}) (run_sa sh initial req phi paramsOpt g).1.rooms
        ≤ compute_energy sh req phi (paramsOpt.getD {}) initial.rooms ∧
    (run_sa sh initial req phi paramsOpt g).1.rooms =
      (saLoop sh req phi (paramsOpt.getD {}) (paramsOpt.getD {}).max_iters
        (saInit sh req phi (paramsOpt.getD {}) initial g)).best ∧
    compute_energy sh req phi (paramsOpt.getD {}) (run_sa sh initial req phi paramsOpt g).1.rooms
        ≤ compute_energy sh req phi (paramsOpt.getD {})
            (saLoop sh req phi (paramsOpt.getD {}) (paramsOpt.getD {}).max_iters
              (saInit sh req phi (paramsOpt.getD {}) initial g)).cur := by
  have hfin := saLoop_inv sh req phi (paramsOpt.getD {}) _ harea (paramsOpt.getD {}).max_iters
    (saInit sh req phi (paramsOpt.getD {}) initial g)
    (saInit_inv sh req phi (paramsOpt.getD {}) initial g)
  obtain ⟨h1, h2, h3, h4⟩ := hfin
  have hcopy := compute_energy_copy_le sh req phi (paramsOpt.getD {}) initial.rooms harea
  have hrooms_eq : (run_sa sh initial req phi paramsOpt g).1.rooms =
      (saLoop sh req phi (paramsOpt.getD {}) (paramsOpt.getD {}).max_iters
        (saInit sh req phi (paramsOpt.getD {}) initial g)).best := rfl
  refine ⟨?_, hrooms_eq, ?_⟩
  · rw [hrooms_eq]
    linarith
  · rw [hrooms_eq, ← h1]
    linarith

end RunSASection

section RefInstances

/-- Bounding box of a coordinate ring (shapely bounds). -/
noncomputable def ringBounds (p : ShPoly) : ℝ × ℝ × ℝ × ℝ :=
  match p with
  | [] => (0, 0, 0, 0)
  | q :: rest => rest.foldl
      (fun b v => (pyMin b.1 v.1, pyMin b.2.1 v.2, pyMax b.2.2.1 v.1, pyMax b.2.2.2 v.2))
      (q.1, q.2, q.1, q.2)

/-- Reference model of the shapely kernel functions, exact for the
axis-aligned rectangles used by the concrete instances in this file:
predicates and measures are computed on bounding boxes, area and
centroid by the shoelace formulas on the ring. -/
noncomputable def refShapely : Shapely :=
  { interArea := fun a b =>
      pyMax 0 (pyMin (ringBounds a).2.2.1 (ringBounds b).2.2.1 -
        pyMax (ringBounds a).1 (ringBounds b).1) *
      pyMax 0 (pyMin (ringBounds a).2.2.2 (ringBounds b).2.2.2 -
        pyMax (ringBounds a).2.1 (ringBounds b).2.1),
    intersects := fun a b =>
      if pyMax (ringBounds a).1 (ringBounds b).1 ≤
            pyMin (ringBounds a).2.2.1 (ringBounds b).2.2.1 ∧
          pyMax (ringBounds a).2.1 (ringBounds b).2.1 ≤
            pyMin (ringBounds a).2.2.2 (ringBounds b).2.2.2 then true else false,
    touches := fun a b =>
      if (pyMax (ringBounds a).1 (ringBounds b).1 ≤
            pyMin (ringBounds a).2.2.1 (ringBounds b).2.2.1 ∧
          pyMax (ringBounds a).2.1 (ringBounds b).2.1 ≤
            pyMin (ringBounds a).2.2.2 (ringBounds b).2.2.2) ∧
          (pyMax 0 (pyMin (ringBounds a).2.2.1 (ringBounds b).2.2.1 -
            pyMax (ringBounds a).1 (ringBounds b).1) *
          pyMax 0 (pyMin (ringBounds a).2.2.2 (ringBounds b).2.2.2 -
            pyMax (ringBounds a).2.1 (ringBounds b).2.1) = 0) then true else false,
    distPoly := fun a b =>
      Real.sqrt ((pyMax 0 (pyMax ((ringBounds b).1 - (ringBounds a).2.2.1)
          ((ringBounds a).1 - (ringBounds b).2.2.1))) ^ 2 +
        (pyMax 0 (pyMax ((ringBounds b).2.1 - (ringBounds a).2.2.2)
          ((ringBounds a).2.1 - (ringBounds b).2.2.2))) ^ 2),
    containsPoly := fun a b =>
      if (ringBounds a).1 < (ringBounds b).1 ∧ (ringBounds a).2.1 < (ringBounds b).2.1 ∧
          (ringBounds b).2.2.1 < (ringBounds a).2.2.1 ∧
          (ringBounds b).2.2.2 < (ringBounds a).2.2.2 then true else false,
    diffArea := fun a b =>
      calculate_polygon_area a -
        pyMax 0 (pyMin (ringBounds a).2.2.1 (ringBounds b).2.2.1 -
          pyMax (ringBounds a).1 (ringBounds b).1) *
        pyMax 0 (pyMin (ringBounds a).2.2.2 (ringBounds b).2.2.2 -
          pyMax (ringBounds a).2.1 (ringBounds b).2.1),
    area := fun pRing => calculate_polygon_area pRing,
    centroid := fun pRing => calculate_polygon_centroid pRing,
    bounds := ringBounds,
    containsPt := fun pRing q =>
      if (ringBounds pRing).1 < q.1 ∧ q.1 < (ringBounds pRing).2.2.1 ∧
          (ringBounds pRing).2.1 < q.2 ∧ q.2 < (ringBounds pRing).2.2.2 then true else false }

/-- The exterior ring of shapely box(x0, y0, x1, y1). -/
def boxRing (x0 y0 x1 y1 : ℝ) : ShPoly :=
  [(x1, y0), (x1, y1), (x0, y1), (x0, y0), (x1, y0)]

/-- A concrete living room on the box with corners (0,0) and (2,2). -/
noncomputable def roomA : RoomState :=
  mkRoomState refShapely "r0" "living" 2 2 (boxRing 0 0 2 2) 0

/-- A concrete request over a 10 by 10 plot with one room entry. -/
noncomputable def reqA : SAReq :=
  { plot := boxRing 0 0 10 10, rooms := [none], adjacency := fun _ => [] }

/-- A generator state whose raw draws are all zero. -/
def rngZero : Rng := { stream := fun _ => 0, pos := 0 }

end RefInstances

section FrameAndVastu

/-- The geometry-relevant fields of a room state that claim C10
quantifies over. -/
def roomGeom (r : RoomState) : String × String × ℝ × ℝ × ShPoly :=
  (r.id, r.type, r.width, r.height, r.polygon)

theorem setPolyAt_length (l : List RoomState) (k : ℕ) (p : ShPoly) :
    (setPolyAt l k p).length = l.length := by
  unfold setPolyAt
  cases l.get? k <;> simp

theorem setPolyAt_get_ne (l : List RoomState) (k : ℕ) (p : ShPoly) (j : ℕ) (hj : j ≠ k) :
    (setPolyAt l k p).get? j = l.get? j := by
  unfold setPolyAt
  cases l.get? k with
  | none => rfl
  | some r =>
    simp only
    rw [List.get?_eq_getElem?, List.get?_eq_getElem?, List.getElem?_set_ne (Ne.symm hj)]

/-- C10: the candidate produced by propose_move has the same length as
the current layout and differs from it in at most one entry, the
randomly selected room: every other entry has identical id, type,
width, height and polygon.  (The input list itself is unmodified, a
fact that is automatic in this value-level embedding because the
source copies every entry before mutating the selected copy.) -/
theorem C10_propose_frame (sh : Shapely) (current : List RoomState) (req : SAReq)
    (params : SAParams) (g : Rng) (h : current ≠ []) :
    (propose_move sh current req params g).1.length = current.length ∧
    ∃ k, k < current.length ∧ ∀ j : ℕ, j ≠ k →
      ((propose_move sh current req params g).1.map roomGeom).get? j =
        (current.map roomGeom).get? j := by
  have hlen : 1 ≤ current.length := List.length_pos.mpr h
  have hk := nextRandint_lt current.length hlen g
  constructor
  · show (setPolyAt (current.map (RoomState.copy sh)) (nextRandint current.length g).1 _).length
      = current.length
    rw [setPolyAt_length, List.length_map]
  · refine ⟨(nextRandint current.length g).1, hk, ?_⟩
    intro j hj
    show ((setPolyAt (current.map (RoomState.copy sh)) (nextRandint current.length g).1 _).map
      roomGeom).get? j = (current.map roomGeom).get? j
    rw [List.get?_map, setPolyAt_get_ne _ _ _ j hj, ← List.get?_map, List.map_map]
    rfl

/-- Witness for C10_propose_frame at a concrete one-room layout. -/
theorem C10_propose_frame_witness :
    [roomA] ≠ [] ∧
    ((propose_move refShapely [roomA] reqA {} rngZero).1.length = [roomA].length ∧
    ∃ k, k < [roomA].length ∧ ∀ j : ℕ, j ≠ k →
      ((propose_move refShapely [roomA] reqA {} rngZero).1.map roomGeom).get? j =
        ([roomA].map roomGeom).get? j) :=
  ⟨by simp, C10_propose_frame refShapely [roomA] reqA {} rngZero (by simp)⟩

/-- Witness for C3_sa_monotone at a concrete one-room instance with
default parameters. -/
theorem C3_sa_monotone_witness :
    ({ rooms := [roomA] } : SolverState).rooms ≠ [] ∧
    0 < ((none : Option SAParams).getD {}).local_repair_interval ∧
    0 < ((none : Option SAParams).getD {}).cooling_step ∧
    (0 : ℝ) ≤ ((none : Option SAParams).getD {}).lambda_area ∧
    (compute_energy refShapely reqA phiUnit ((none : Option SAParams).getD {})
        (run_sa refShapely { rooms := [roomA] } reqA phiUnit none rngZero).1.rooms
        ≤ compute_energy refShapely reqA phiUnit ((none : Option SAParams).getD {})
          ({ rooms := [roomA] } : SolverState).rooms ∧
    (run_sa refShapely { rooms := [roomA] } reqA phiUnit none rngZero).1.rooms =
      (saLoop refShapely reqA phiUnit ((none : Option SAParams).getD {})
        ((none : Option SAParams).getD {}).max_iters
        (saInit refShapely reqA phiUnit ((none : Option SAParams).getD {})
          { rooms := [roomA] } rngZero)).best ∧
    compute_energy refShapely reqA phiUnit ((none : Option SAParams).getD {})
        (run_sa refShapely { rooms := [roomA] } reqA phiUnit none rngZero).1.rooms
        ≤ compute_energy refShapely reqA phiUnit ((none : Option SAParams).getD {})
            (saLoop refShapely reqA phiUnit ((none : Option SAParams).getD {})
              ((none : Option SAParams).getD {}).max_iters
              (saInit refShapely reqA phiUnit ((none : Option SAParams).getD {})
                { rooms := [roomA] } rngZero)).cur) :=
  ⟨by simp, by norm_num [Option.getD], by norm_num [Option.getD], by norm_num [Option.getD],
    C3_sa_monotone refShapely { rooms := [roomA] } reqA phiUnit none rngZero (by simp)
      (by norm_num [Option.getD]) (by norm_num [Option.getD]) (by norm_num [Option.getD])⟩

section VastuTermClaims

/-- A concrete Vastu field over the unit-square bounding box whose
containment test accepts exactly the points with positive first
coordinate; its single grid node (0,0) is outside, so the stored
kitchen grid is identically zero. -/
noncomputable def phiK : PhiGrid :=
  { containsB := fun p => if 0 < p.1 then true else false,
    xmin := 0, ymin := 0, xmax := 1, ymax := 1,
    res := 1, sigma := 2, roomTypes := ["kitchen"] }

/-- A concrete bedroom whose type has no grid in phiK, centered at
(1/2, 1/2). -/
noncomputable def roomB : RoomState :=
  mkRoomState refShapely "rb" "bedroom" (2/5) (2/5) (boxRing (3/10) (3/10) (7/10) (7/10)) 0

theorem phiK_nx : phiK.nx = 1 := by
  unfold PhiGrid.nx phiK
  norm_num

theorem phiK_ny : phiK.ny = 1 := by
  unfold PhiGrid.ny phiK
  norm_num

theorem phiK_mask (j i : ℕ) : phiK.mask j i = false := by
  unfold PhiGrid.mask PhiGrid.xcoord
  rw [phiK_nx]
  simp only [le_refl, if_true]
  show (if (0 : ℝ) < 0 then true else false) = false
  norm_num

theorem phiK_masked (t : String) (j i : ℕ) : phiK.maskedGrid t j i = 0 := by
  unfold PhiGrid.maskedGrid
  rw [phiK_mask]
  simp

theorem phiK_gridMax (t : String) : phiK.gridMax t = 0 := by
  unfold PhiGrid.gridMax PhiGrid.gridEntries
  rw [phiK_nx, phiK_ny]
  simp [List.range_succ, phiK_masked]

theorem phiK_final (t : String) (j i : ℕ) : phiK.finalGrid t j i = 0 := by
  unfold PhiGrid.finalGrid
  rw [phiK_gridMax, phiK_masked]
  norm_num

theorem phiK_contains_half : phiK.containsB (1/2, 1/2) = true := by
  show (if (0 : ℝ) < 1/2 then true else false) = true
  norm_num

theorem phiK_sample_kitchen : phiK.sample_point (1/2) (1/2) "kitchen" = 0 := by
  unfold PhiGrid.sample_point
  rw [phiK_contains_half]
  have hmem : "kitchen" ∈ phiK.roomTypes := by
    show "kitchen" ∈ ["kitchen"]
    simp
  rw [if_neg (by simp), if_pos hmem]
  unfold PhiGrid.bilinear
  rw [phiK_final, phiK_final, phiK_final, phiK_final]
  ring

theorem phiK_sample_bedroom : phiK.sample_point (1/2) (1/2) "bedroom" = 1/2 := by
  unfold PhiGrid.sample_point
  rw [phiK_contains_half]
  have hmem : "bedroom" ∉ phiK.roomTypes := by
    show "bedroom" ∉ ["kitchen"]
    simp
  rw [if_neg (by simp), if_neg hmem]
  norm_num

theorem phiK_sample_phi_half : phiK.sample_phi (1/2) (1/2) = 0 := by
  unfold PhiGrid.sample_phi
  simp only [show phiK.roomTypes = ["kitchen"] from rfl, List.isEmpty_cons, List.map_cons,
    List.map_nil, List.sum_cons, List.sum_nil, List.length_cons, List.length_nil]
  rw [phiK_sample_kitchen]
  norm_num

theorem roomB_centroid : refShapely.centroid roomB.polygon = (1/2, 1/2) := by
  show calculate_polygon_centroid (boxRing (3/10) (3/10) (7/10) (7/10)) = ((1:ℝ)/2, (1:ℝ)/2)
  unfold calculate_polygon_centroid polyEdges boxRing
  norm_num [List.rotate, abs_of_nonneg]

/-- C4 counterexample: for the concrete field phiK and a single
bedroom at (1/2, 1/2), the Vastu term of compute_energy differs from
the claimed value (the potential of the room at its own type sampled
at its centroid): the code samples the type-independent mean via
sample_phi, which here is 0, while the own-type potential of the
bedroom is the neutral 0.5. -/
theorem C4_counterexample :
    vastuTerm refShapely {} phiK [roomB] ≠
      -(({} : SAParams).lambda_vastu *
        phiK.sample_point (refShapely.centroid roomB.polygon).1
          (refShapely.centroid roomB.polygon).2 roomB.type) := by
  have htype : roomB.type = "bedroom" := rfl
  have hL : vastuTerm refShapely {} phiK [roomB] = 0 := by
    unfold vastuTerm
    simp only [List.map_cons, List.map_nil, List.sum_cons, List.sum_nil]
    rw [roomB_centroid]
    have hs : phiK.sample_phi ((1/2 : ℝ), (1/2 : ℝ)).1 ((1/2 : ℝ), (1/2 : ℝ)).2 = 0 :=
      phiK_sample_phi_half
    rw [hs]
    ring
  rw [hL, htype, roomB_centroid]
  have hb : phiK.sample_point ((1/2 : ℝ), (1/2 : ℝ)).1 ((1/2 : ℝ), (1/2 : ℝ)).2 "bedroom" = 1/2 :=
    phiK_sample_bedroom
  rw [hb]
  have hlv : ({} : SAParams).lambda_vastu = 1 := rfl
  rw [hlv]
  norm_num

/-- C4 (corrected): the Vastu term of the refiner energy is the
type-independent mean potential: each room contributes
lambda_vastu times the mean of Phi over all requested room types at
the room centroid (0 when no types were requested), regardless of the
room's own type. -/
theorem C4_vastu_mean (sh : Shapely) (params : SAParams) (phi : PhiGrid)
    (rooms : List RoomState) :
    vastuTerm sh params phi rooms =
      -(params.lambda_vastu * (rooms.map (fun r =>
        if phi.roomTypes.isEmpty then 0
        else ((phi.roomTypes.map (fun t =>
          phi.sample_point (sh.centroid r.polygon).1 (sh.centroid r.polygon).2 t)).sum) /
          (phi.roomTypes.length : ℝ))).sum) := by
  unfold vastuTerm
  rw [List.sum_map_mul_left]
  simp only [PhiGrid.sample_phi]

end VastuTermClaims

end FrameAndVastu



section GraphSolverSection

/-! Embedding of graph_solver.py (the force-directed placer and its
orchestrating solve).  numpy arithmetic is idealized as exact real
arithmetic; np.linalg.norm is Real.sqrt of the sum of squares; the
global numpy generator is the explicit Rng state.  Python dicts keyed
by room id are association lists in insertion order (CPython dicts
preserve insertion order). -/

/-- Python str.lower, written on the character list so that concrete
instances reduce. -/
def pyLower (s : String) : String := ⟨s.data.map Char.toLower⟩

/-- Python str.strip (whitespace from both ends), on the character
list. -/
def pyStrip (s : String) : String :=
  ⟨((s.data.dropWhile Char.isWhitespace).reverse.dropWhile Char.isWhitespace).reverse⟩

/-- Python str.replace for a single-character pattern, on the
character list. -/
def pyReplaceChar (s : String) (a b : Char) : String :=
  ⟨s.data.map (fun c => if c = a then b else c)⟩

/-- The Direction enum of graph_solver.py. -/
inductive Direction where
  | north | northeast | east | southeast | south | southwest | west | northwest | center
deriving DecidableEq

/-- The string value of a Direction (the str-enum value). -/
def Direction.val : Direction → String
  | .north => "north"
  | .northeast => "northeast"
  | .east => "east"
  | .southeast => "southeast"
  | .south => "south"
  | .southwest => "southwest"
  | .west => "west"
  | .northwest => "northwest"
  | .center => "center"

/-- Parse a string as a Direction value (the `facing in values` check
plus Direction(facing) conversion). -/
def parseDirection (s : String) : Option Direction :=
  if s = "north" then some .north
  else if s = "northeast" then some .northeast
  else if s = "east" then some .east
  else if s = "southeast" then some .southeast
  else if s = "south" then some .south
  else if s = "southwest" then some .southwest
  else if s = "west" then some .west
  else if s = "northwest" then some .northwest
  else if s = "center" then some .center
  else none

/-- The RoomType enum of graph_solver.py. -/
inductive RoomType where
  | entrance | main_door | kitchen | master_bedroom | bedroom | bathroom | toilet
  | pooja_room | living | hall | dining | study | store | balcony
deriving DecidableEq

/-- Embedding of GraphBasedLayoutSolver._normalize_room_type: first
the RoomType(value) conversion on the exact enum value strings, then
the falsy check, then the fallback mapping on the stripped lowercase
key. -/
def normalize_room_type (s : String) : Option RoomType :=
  if s = "entrance" then some .entrance
  else if s = "main_door" then some .main_door
  else if s = "kitchen" then some .kitchen
  else if s = "master_bedroom" then some .master_bedroom
  else if s = "bedroom" then some .bedroom
  else if s = "bathroom" then some .bathroom
  else if s = "toilet" then some .toilet
  else if s = "pooja_room" then some .pooja_room
  else if s = "living" then some .living
  else if s = "hall" then some .hall
  else if s = "dining" then some .dining
  else if s = "study" then some .study
  else if s = "store" then some .store
  else if s = "balcony" then some .balcony
  else if s = "" then none
  else
    let k := pyLower (pyStrip s)
    if k = "living_room" then some .living
    else if k = "living" then some .living
    else if k = "hall" then some .hall
    else if k = "kitchen" then some .kitchen
    else if k = "master_bedroom" then some .master_bedroom
    else if k = "bedroom" then some .bedroom
    else if k = "bathroom" then some .bathroom
    else if k = "toilet" then some .toilet
    else if k = "pooja" then some .pooja_room
    else if k = "pooja_room" then some .pooja_room
    else if k = "dining" then some .dining
    else if k = "entrance" then some .entrance
    else if k = "main_door" then some .entrance
    else if k = "study" then some .study
    else if k = "balcony" then some .balcony
    else none

/-- The OUTDOOR_TYPES membership test (_is_outdoor). -/
def is_outdoor (s : String) : Bool :=
  pyLower s ∈ ["garden", "lawn", "car_parking", "carport", "parking", "swimming_pool",
    "driveway", "deck", "patio", "terrace", "trees", "bore_well", "water_tank"]

/-- A VASTU_PREFERENCES entry. -/
structure VPref where
  preferred : List Direction
  acceptable : List Direction
  avoid : List Direction
  weight : ℝ

/-- The VASTU_PREFERENCES table. -/
noncomputable def vastu_preferences : RoomType → Option VPref
  | .pooja_room => some ⟨[.northeast], [.north, .east], [.south, .southwest, .west], 1⟩
  | .entrance => some ⟨[.north, .east, .northeast], [.northwest], [.south, .southwest], 0.9⟩
  | .kitchen => some ⟨[.southeast], [.northwest, .east], [.north, .northeast, .southwest], 0.9⟩
  | .master_bedroom => some ⟨[.southwest], [.south, .west], [.northeast, .north], 0.8⟩
  | .living => some ⟨[.north, .east, .northeast], [.northwest, .center], [.southwest], 0.6⟩
  | .bedroom => some ⟨[.west, .northwest, .southwest], [.south], [.northeast], 0.6⟩
  | .bathroom => some ⟨[.northwest, .west], [.south], [.northeast, .east, .north], 0.7⟩
  | .dining => some ⟨[.east, .west], [.north, .south], [], 0.5⟩
  | _ => none

/-- The OUTDOOR_VASTU_PREFERENCES table (preferred directions only,
as the source dicts carry). -/
def outdoor_vastu_preferences (s : String) : Option (List Direction) :=
  if s = "garden" then some [.northeast, .north, .east]
  else if s = "lawn" then some [.northeast, .north, .east]
  else if s = "swimming_pool" then some [.northeast, .north]
  else if s = "parking" then some [.southeast, .northwest]
  else if s = "car_parking" then some [.southeast, .northwest]
  else if s = "carport" then some [.southeast, .northwest]
  else if s = "deck" then some [.east, .north]
  else if s = "patio" then some [.east, .north]
  else if s = "terrace" then some [.east, .north]
  else if s = "trees" then some [.northeast, .north]
  else if s = "bore_well" then some [.northeast]
  else if s = "water_tank" then some [.southwest]
  else none

/-- The ROOM_SIZES table (width, height); the min/max area entries of
the source dict are read by no code path embedded here. -/
noncomputable def room_sizes : RoomType → Option (ℝ × ℝ)
  | .living => some (6, 5)
  | .hall => some (6, 5)
  | .kitchen => some (3.5, 3.5)
  | .master_bedroom => some (4.5, 4.5)
  | .bedroom => some (4, 4)
  | .bathroom => some (2.2, 2)
  | .toilet => some (1.8, 1.8)
  | .pooja_room => some (1.8, 1.8)
  | .dining => some (3.5, 3.5)
  | .entrance => some (3, 2)
  | .study => some (3, 3)
  | .balcony => some (2.5, 4)
  | _ => none

/-- The ADJACENCY_GRAPH table (room_type in ADJACENCY_GRAPH lookup). -/
def adjacency_graph_table (t : String) : Option (List String) :=
  if t = "kitchen" then some ["dining", "living"]
  else if t = "master_bedroom" then some ["bathroom"]
  else if t = "bedroom" then some ["bathroom"]
  else if t = "living" then some ["dining", "entrance", "hall"]
  else if t = "dining" then some ["kitchen", "living"]
  else if t = "entrance" then some ["living", "hall"]
  else if t = "hall" then some ["living", "entrance"]
  else if t = "pooja_room" then some ["living", "entrance"]
  else none

/-- The PhysicsParams dataclass with its defaults. -/
structure PhysicsParams where
  max_iterations : ℕ := 100
  time_step : ℝ := 0.1
  damping : ℝ := 0.8
  attraction_strength : ℝ := 0.5
  repulsion_strength : ℝ := 1
  vastu_force_strength : ℝ := 2
  boundary_force_strength : ℝ := 3
  convergence_threshold : ℝ := 0.01
  ideal_spacing : ℝ := 1

/-- A room dict of the solver request, with the keys the solve path
reads. -/
structure GRoom where
  id : String
  name : String
  type : String
  direction : Option String := none

/-- The recognized constraint keys of the request constraints dict
(other keys are never read by the embedded paths; the model covers
well-typed values of the recognized keys). -/
structure GConstraints where
  plot_polygon : Option (List (ℝ × ℝ)) := none
  circle : Option ((ℝ × ℝ) × ℝ) := none
  house_facing : Option String := none

/-- The pydantic plot_shape validator of SolverRequest. -/
def normalize_plot_shape (v : String) : String :=
  let v2 := pyReplaceChar (pyStrip (pyLower v)) '_' '-'
  if v2 = "rectangular" ∨ v2 = "square" ∨ v2 = "l-shaped" ∨ v2 = "t-shaped" ∨
      v2 = "triangular" ∨ v2 = "irregular" ∨ v2 = "circular" then v2
  else "rectangular"

/-- The validated SolverRequest (fields already validated by
pydantic, so plot_shape carries a normalized value and the dimensions
are positive). -/
structure GRequest where
  rooms : List GRoom
  plot_width : ℝ := 30
  plot_length : ℝ := 30
  plot_shape : String := "rectangular"
  plot_polygon : Option (List (ℝ × ℝ)) := none
  outdoor_fixtures : Option (List String) := none
  constraints : Option GConstraints := none
  seed : Option ℤ := none

/-- The mutable state of a GraphBasedLayoutSolver instance. -/
structure GS where
  plot_width : ℝ
  plot_length : ℝ
  plot_shape : String
  plot_polygon : Option (List (ℝ × ℝ)) := none
  plot_circle : Option ((ℝ × ℝ) × ℝ) := none
  constraints : GConstraints := {}
  fixed_nodes : List String := []
  positions : List (String × (ℝ × ℝ)) := []
  velocities : List (String × (ℝ × ℝ)) := []
  dimensions : List (String × (ℝ × ℝ)) := []

/-- Dict insert-or-update preserving insertion order. -/
def alSet {α : Type} (l : List (String × α)) (k : String) (v : α) : List (String × α) :=
  if l.any (fun pr => pr.1 == k) then
    l.map (fun pr => if pr.1 == k then (k, v) else pr)
  else l ++ [(k, v)]

/-- Dict lookup. -/
def alGet {α : Type} (l : List (String × α)) (k : String) : Option α :=
  (l.find? (fun pr => pr.1 == k)).map Prod.snd

/-- Dict lookup with default (the embedded paths only look up present
keys; the default stands in for a KeyError). -/
def alGetD {α : Type} (l : List (String × α)) (k : String) (d : α) : α :=
  (alGet l k).getD d

/-- np.linalg.norm of a 2-vector. -/
noncomputable def vecNorm (v : ℝ × ℝ) : ℝ := Real.sqrt (v.1 * v.1 + v.2 * v.2)

/-- np.clip. -/
noncomputable def pyClip (a lo hi : ℝ) : ℝ := pyMin (pyMax a lo) hi

/-- Node attributes stored by _build_adjacency_graph. -/
structure NodeAttrs where
  room_type : String
  name : String
  is_out : Bool

/-- A networkx Graph: nodes with attributes and weighted undirected
edges, both in first-insertion order. -/
structure NxGraph where
  nodes : List (String × NodeAttrs) := []
  edges : List (String × String × ℝ) := []

/-- nx.Graph.add_node (insert or update attributes). -/
def NxGraph.addNode (G : NxGraph) (id : String) (a : NodeAttrs) : NxGraph :=
  if G.nodes.any (fun pr => pr.1 == id) then
    { G with nodes := G.nodes.map (fun pr => if pr.1 == id then (id, a) else pr) }
  else { G with nodes := G.nodes ++ [(id, a)] }

/-- nx.Graph.has_edge (undirected). -/
def NxGraph.hasEdge (G : NxGraph) (u v : String) : Bool :=
  G.edges.any (fun e => (e.1 == u && e.2.1 == v) || (e.1 == v && e.2.1 == u))

/-- nx.Graph.add_edge: update the weight when present, else append. -/
def NxGraph.addEdge (G : NxGraph) (u v : String) (w : ℝ) : NxGraph :=
  if G.hasEdge u v then
    { G with edges := G.edges.map (fun e =>
        if (e.1 == u && e.2.1 == v) || (e.1 == v && e.2.1 == u) then (e.1, e.2.1, w) else e) }
  else { G with edges := G.edges ++ [(u, v, w)] }

/-- Node attribute access G.nodes[id]['room_type'] (a missing node
would raise in the source; the empty string stands in). -/
def NxGraph.nodeType (G : NxGraph) (id : String) : String :=
  ((G.nodes.find? (fun pr => pr.1 == id)).map (fun pr => pr.2.room_type)).getD ""

/-- Node attribute access G.nodes[id].get('is_outdoor', False). -/
def NxGraph.nodeOutdoor (G : NxGraph) (id : String) : Bool :=
  ((G.nodes.find? (fun pr => pr.1 == id)).map (fun pr => pr.2.is_out)).getD false

/-- Embedding of GraphBasedLayoutSolver._build_adjacency_graph. -/
def build_adjacency_graph (rooms : List GRoom) : NxGraph :=
  let G0 := rooms.foldl (fun G room =>
    G.addNode room.id ⟨room.type, room.name, is_outdoor room.type⟩) {}
  rooms.foldl (fun G room =>
    match adjacency_graph_table room.type with
    | none => G
    | some adjTypes =>
      if is_outdoor room.type then G
      else
        adjTypes.foldl (fun G adjacent_type =>
          rooms.foldl (fun G other =>
            if other.type == adjacent_type && other.id != room.id &&
                ! is_outdoor other.type then
              G.addEdge room.id other.id
                (if (room.type == "kitchen" && adjacent_type == "dining") ||
                    (room.type == "master_bedroom" && adjacent_type == "bathroom") then 2
                 else 1)
            else G) G) G) G0

/-- The solver always runs with the PhysicsParams defaults (the
constructor never overrides them). -/
noncomputable def gparams : PhysicsParams := {}

/-- Componentwise vector sum. -/
noncomputable def addV (a b : ℝ × ℝ) : ℝ × ℝ := (a.1 + b.1, a.2 + b.2)

/-- Componentwise vector difference. -/
noncomputable def subV (a b : ℝ × ℝ) : ℝ × ℝ := (a.1 - b.1, a.2 - b.2)

/-- Python truthiness of an optional vertex list. -/
def polyTruthy : Option (List (ℝ × ℝ)) → Bool
  | none => false
  | some p => !p.isEmpty

/-- The four corner centers used throughout the solver, in source
order: bottom-left, bottom-right, top-right, top-left offsets. -/
noncomputable def rectCorners (pos : ℝ × ℝ) (w h : ℝ) : List (ℝ × ℝ) :=
  [(pos.1 - w / 2, pos.2 - h / 2), (pos.1 + w / 2, pos.2 - h / 2),
   (pos.1 + w / 2, pos.2 + h / 2), (pos.1 - w / 2, pos.2 + h / 2)]

/-- Embedding of GraphBasedLayoutSolver._get_room_dimensions: look up
the size spec (4x4 fallback) and scale each side by an independent
uniform(0.95, 1.05) draw, rounded to 2 decimals. -/
noncomputable def get_room_dimensions (room_type : String) (g : Rng) : (ℝ × ℝ) × Rng :=
  let specs : ℝ × ℝ :=
    match normalize_room_type room_type with
    | some rt => (room_sizes rt).getD (4, 4)
    | none => (4, 4)
  let u1 := nextUniform 0.95 1.05 g
  let u2 := nextUniform 0.95 1.05 u1.2
  ((round2 (specs.1 * u1.1), round2 (specs.2 * u2.1)), u2.2)

/-- The direction_map dict of _get_vastu_target_position.  The dict
holds every Direction, so the .get default is never taken. -/
noncomputable def direction_map (W L : ℝ) : Direction → ℝ × ℝ
  | .northeast => (W * 0.25, L * 0.25)
  | .north => (W * 0.5, L * 0.25)
  | .northwest => (W * 0.75, L * 0.25)
  | .east => (W * 0.25, L * 0.5)
  | .center => (W * 0.5, L * 0.5)
  | .west => (W * 0.75, L * 0.5)
  | .southeast => (W * 0.25, L * 0.75)
  | .south => (W * 0.5, L * 0.75)
  | .southwest => (W * 0.75, L * 0.75)

/-- Embedding of geometry_utils.calculate_polygon_inradius. -/
noncomputable def calculate_polygon_inradius (poly : List (ℝ × ℝ)) : ℝ :=
  let area := calculate_polygon_area poly
  let perim := ((polyEdges poly).map (fun e =>
    Real.sqrt ((e.1.1 - e.2.1) * (e.1.1 - e.2.1) + (e.1.2 - e.2.2) * (e.1.2 - e.2.2)))).sum
  let sp := perim / 2
  if sp ≤ 0 then 0 else area / sp

/-- The angle_map of _get_vastu_target_position_triangular (degrees,
none for CENTER). -/
def triangular_angle_map : Direction → Option ℝ
  | .east => some 0
  | .northeast => some 45
  | .north => some 90
  | .northwest => some 135
  | .west => some 180
  | .southwest => some 225
  | .south => some 270
  | .southeast => some 315
  | .center => none

/-- The shared preferred-direction selection of the two Vastu target
functions: indoor preferences via the enum, else (when the indoor list
is empty and an outdoor entry exists) the outdoor preferences. -/
noncomputable def preferredDirections (room_type : String) : List Direction :=
  let vastu_pref := (normalize_room_type room_type).bind vastu_preferences
  let preferred := match vastu_pref with | some p => p.preferred | none => []
  match outdoor_vastu_preferences (pyLower room_type) with
  | some od => if preferred.isEmpty then od else preferred
  | none => preferred

/-- Embedding of _get_vastu_target_position_triangular. -/
noncomputable def get_vastu_target_position_triangular (s : GS) (room_type : String) : ℝ × ℝ :=
  match s.plot_polygon with
  | none => (s.plot_width / 2, s.plot_length / 2)
  | some poly =>
    if poly.length < 3 then (s.plot_width / 2, s.plot_length / 2)
    else
      let centroid := calculate_polygon_centroid poly
      let inradius := calculate_polygon_inradius poly
      let safe_radius := pyMax 0.1 (inradius * 0.7)
      let vastu_pref := (normalize_room_type room_type).bind vastu_preferences
      let outdoor_pref := outdoor_vastu_preferences (pyLower room_type)
      if vastu_pref.isNone && outdoor_pref.isNone then centroid
      else
        match preferredDirections room_type with
        | [] => centroid
        | d :: _ =>
          match triangular_angle_map d with
          | none => centroid
          | some angle =>
            let rad := angle * Real.pi / 180
            let target := (centroid.1 + safe_radius * Real.cos rad,
                           centroid.2 + safe_radius * Real.sin rad)
            if ! point_in_polygon target poly then project_point_inside target poly
            else target

/-- Embedding of _get_vastu_target_position, including the
house_facing entrance override from the constraints dict. -/
noncomputable def get_vastu_target_position (s : GS) (room_type : String) : ℝ × ℝ :=
  let rt := normalize_room_type room_type
  let vastu_pref := rt.bind vastu_preferences
  let outdoor_pref := outdoor_vastu_preferences (pyLower room_type)
  if vastu_pref.isNone && outdoor_pref.isNone then (s.plot_width / 2, s.plot_length / 2)
  else if s.plot_shape = "triangular" then get_vastu_target_position_triangular s room_type
  else
    let preferred0 := preferredDirections room_type
    let facing := pyLower (pyStrip ((s.constraints.house_facing).getD ""))
    let preferred :=
      if rt = some RoomType.entrance ∧ facing ≠ "" then
        match parseDirection facing with
        | some d => d :: preferred0.filter (fun x => x ≠ d)
        | none => preferred0
      else preferred0
    match preferred with
    | [] => (s.plot_width / 2, s.plot_length / 2)
    | d :: _ => direction_map s.plot_width s.plot_length d

/-- Embedding of _project_inside_polygon: move the center so that the
first out-of-polygon corner projects back in, preserving the corner
offset. -/
noncomputable def project_inside_polygon (s : GS) (pos : ℝ × ℝ) (w h : ℝ) : ℝ × ℝ :=
  match s.plot_polygon with
  | none => pos
  | some poly =>
    if poly.isEmpty then pos
    else
      match (rectCorners pos w h).find? (fun c => ! point_in_polygon c poly) with
      | none => pos
      | some corner =>
        let proj := project_point_inside corner poly
        (proj.1 - (corner.1 - pos.1), proj.2 - (corner.2 - pos.2))

/-- Embedding of _project_inside_circle. -/
noncomputable def project_inside_circle (s : GS) (pos : ℝ × ℝ) (w h : ℝ) : ℝ × ℝ :=
  match s.plot_circle with
  | none => pos
  | some c =>
    let center := c.1
    let radius := c.2
    let half_diag := Real.sqrt ((w / 2) * (w / 2) + (h / 2) * (h / 2))
    let max_center_dist := pyMax 0 (radius - half_diag)
    let delta := subV pos center
    let dist := vecNorm delta
    if max_center_dist < dist ∧ 1 / 1000000 < dist then
      (center.1 + delta.1 / dist * max_center_dist, center.2 + delta.2 / dist * max_center_dist)
    else pos

/-- The hypotenuse snap block shared by _initialize_positions,
_physics_step and _resolve_overlaps for triangular plots: project the
top-right corner back onto (x / W + y / L = 1) when it overflows. -/
noncomputable def triHypSnap (s : GS) (pos : ℝ × ℝ) (w h : ℝ) : ℝ × ℝ :=
  let corner := (pos.1 + w / 2, pos.2 + h / 2)
  let val := corner.1 / s.plot_width + corner.2 / s.plot_length - 1
  if 0 < val then
    let grad := ((1 : ℝ) / s.plot_width, (1 : ℝ) / s.plot_length)
    let alpha := val / (grad.1 * grad.1 + grad.2 * grad.2)
    (corner.1 - alpha * grad.1 - w / 2, corner.2 - alpha * grad.2 - h / 2)
  else pos

/-- Embedding of the per-room body of _initialize_positions. -/
noncomputable def initOne (acc : GS × Rng) (room : GRoom) : GS × Rng :=
  let s := acc.1
  let dg := get_room_dimensions room.type acc.2
  let width := dg.1.1
  let height := dg.1.2
  let s1 := { s with dimensions := alSet s.dimensions room.id (width, height) }
  let vastu_target := get_vastu_target_position s1 room.type
  let o1 := nextUniform (-2) 2 dg.2
  let o2 := nextUniform (-2) 2 o1.2
  let pos0 := (vastu_target.1 + o1.1, vastu_target.2 + o2.1)
  let pos :=
    if s1.plot_shape = "irregular" ∧ polyTruthy s1.plot_polygon then
      project_inside_polygon s1 pos0 width height
    else if s1.plot_shape = "triangular" then
      triHypSnap s1 (pyMax pos0.1 (width / 2), pyMax pos0.2 (height / 2)) width height
    else
      (pyClip pos0.1 (width / 2) (s1.plot_width - width / 2),
       pyClip pos0.2 (height / 2) (s1.plot_length - height / 2))
  ({ s1 with
      positions := alSet s1.positions room.id pos
      velocities := alSet s1.velocities room.id (0, 0) }, o2.2)

/-- Embedding of _initialize_positions. -/
noncomputable def initialize_positions (s : GS) (rooms : List GRoom) (g : Rng) : GS × Rng :=
  rooms.foldl initOne (s, g)

/-- Embedding of _project_point_to_edge (projection and distance). -/
noncomputable def project_point_to_edge (point a b : ℝ × ℝ) : (ℝ × ℝ) × ℝ :=
  let ev := subV b a
  let l2 := ev.1 * ev.1 + ev.2 * ev.2
  if l2 < 1 / 1000000 then (a, vecNorm (subV point a))
  else
    let t := pyMax 0 (pyMin 1 (((point.1 - a.1) * ev.1 + (point.2 - a.2) * ev.2) / l2))
    let proj := (a.1 + t * ev.1, a.2 + t * ev.2)
    (proj, vecNorm (subV point proj))

/-- Embedding of _calculate_attractive_force. -/
noncomputable def calculate_attractive_force (s : GS) (r1 r2 : String) (weight : ℝ) : ℝ × ℝ :=
  let pos1 := alGetD s.positions r1 (0, 0)
  let pos2 := alGetD s.positions r2 (0, 0)
  let delta := subV pos2 pos1
  let distance := vecNorm delta
  if distance < 0.1 then (0, 0)
  else
    let d1 := alGetD s.dimensions r1 (0, 0)
    let d2 := alGetD s.dimensions r2 (0, 0)
    let ideal := (pyMax d1.1 d2.1 + pyMax d1.2 d2.2) / 2 + gparams.ideal_spacing
    let mag := gparams.attraction_strength * weight * (distance - ideal)
    (mag * (delta.1 / distance), mag * (delta.2 / distance))

/-- Embedding of _calculate_repulsive_force (the only force that can
draw randomness, when the two centers nearly coincide). -/
noncomputable def calculate_repulsive_force (s : GS) (r1 r2 : String) (g : Rng) :
    (ℝ × ℝ) × Rng :=
  let pos1 := alGetD s.positions r1 (0, 0)
  let pos2 := alGetD s.positions r2 (0, 0)
  let delta := subV pos1 pos2
  let distance := vecNorm delta
  if distance < 0.1 then
    let u1 := nextUniform (-5) 5 g
    let u2 := nextUniform (-5) 5 u1.2
    ((u1.1, u2.1), u2.2)
  else
    let mag := gparams.repulsion_strength * (5 / distance)
    ((mag * (delta.1 / distance), mag * (delta.2 / distance)), g)

/-- Embedding of _calculate_vastu_force. -/
noncomputable def calculate_vastu_force (s : GS) (room_id room_type : String) : ℝ × ℝ :=
  let vastu_pref := (normalize_room_type room_type).bind vastu_preferences
  let outd := is_outdoor room_type
  if vastu_pref.isNone && !outd then (0, 0)
  else
    let current := alGetD s.positions room_id (0, 0)
    let target := get_vastu_target_position s room_type
    let delta := subV target current
    let distance := vecNorm delta
    if distance < 0.5 then (0, 0)
    else
      let weight := match vastu_pref with | some p => p.weight | none => 0.4
      let mag := gparams.vastu_force_strength * weight
      (mag * (delta.1 / distance), mag * (delta.2 / distance))

/-- Componentwise mean of the polygon vertices (np.mean(..., axis=0)). -/
noncomputable def polyMean (poly : List (ℝ × ℝ)) : ℝ × ℝ :=
  ((poly.map Prod.fst).sum / (poly.length : ℝ), (poly.map Prod.snd).sum / (poly.length : ℝ))

/-- The nearest-edge scan of the irregular branch of
_calculate_boundary_force for one out-of-polygon corner: minimum
distance and the inward unit normal of the winning edge.  The inf
initial minimum is the none accumulator. -/
noncomputable def edgeNormalScan (poly : List (ℝ × ℝ)) (corner : ℝ × ℝ) : ℝ × (ℝ × ℝ) :=
  let center := polyMean poly
  let r := (polyEdges poly).foldl (fun (acc : Option (ℝ × (ℝ × ℝ))) e =>
    let pd := project_point_to_edge corner e.1 e.2
    let better := match acc with | none => true | some a => pd.2 < a.1
    if better then
      let ev := subV e.2 e.1
      let n0 := (-ev.2, ev.1)
      let nn := vecNorm n0
      let n1 := (n0.1 / nn, n0.2 / nn)
      let n2 := if n1.1 * (center.1 - pd.1.1) + n1.2 * (center.2 - pd.1.2) < 0 then
          (-n1.1, -n1.2)
        else n1
      some (pd.2, n2)
    else acc) none
  match r with
  | none => (0, (0, 0))
  | some a => a

/-- The irregular branch of _calculate_boundary_force.  In the source
the force update sits after the corner loop and reads min_dist and
best_normal, which are (re)bound only inside the branch handling an
out-of-polygon corner; so the force uses the scan of the LAST corner
found outside, and when every corner is inside the source raises
NameError (min_dist unbound).  The embedding returns the zero force in
that unreachable-by-claims case. -/
noncomputable def irregular_boundary_force (s : GS) (pos : ℝ × ℝ) (w h : ℝ) : ℝ × ℝ :=
  match s.plot_polygon with
  | none => (0, 0)
  | some poly =>
    match ((rectCorners pos w h).filter (fun c => ! point_in_polygon c poly)).getLast? with
    | none => (0, 0)
    | some corner =>
      let scan := edgeNormalScan poly corner
      (gparams.boundary_force_strength * scan.1 * scan.2.1,
       gparams.boundary_force_strength * scan.1 * scan.2.2)

/-- The circular branch of _calculate_boundary_force. -/
noncomputable def circular_boundary_force (s : GS) (pos : ℝ × ℝ) (w h : ℝ) : ℝ × ℝ :=
  match s.plot_circle with
  | none => (0, 0)
  | some c =>
    (rectCorners pos w h).foldl (fun f corner =>
      let delta := subV corner c.1
      let dist := vecNorm delta
      let overflow := dist - c.2
      if 0 < overflow then
        let dd := if 1 / 1000000 < dist then dist else 1
        (f.1 - gparams.boundary_force_strength * overflow * (delta.1 / dd),
         f.2 - gparams.boundary_force_strength * overflow * (delta.2 / dd))
      else f) (0, 0)

/-- The triangular branch of _calculate_boundary_force. -/
noncomputable def triangular_boundary_force (s : GS) (pos : ℝ × ℝ) (w h : ℝ) : ℝ × ℝ :=
  let fx := if pos.1 - w / 2 < 0 then gparams.boundary_force_strength * 5 * |pos.1 - w / 2| else 0
  let fy := if pos.2 - h / 2 < 0 then gparams.boundary_force_strength * 5 * |pos.2 - h / 2| else 0
  let corner := (pos.1 + w / 2, pos.2 + h / 2)
  let val := corner.1 / s.plot_width + corner.2 / s.plot_length - 1
  if 0 < val then
    (fx - gparams.boundary_force_strength * 5 * val * (1 / s.plot_width) * pyMax w h,
     fy - gparams.boundary_force_strength * 5 * val * (1 / s.plot_length) * pyMax w h)
  else (fx, fy)

/-- The rectangular (default) branch of _calculate_boundary_force. -/
noncomputable def rect_boundary_force (s : GS) (pos : ℝ × ℝ) (w h : ℝ) : ℝ × ℝ :=
  let fx0 := if pos.1 - w / 2 < 0 then gparams.boundary_force_strength * |pos.1 - w / 2| else 0
  let fx1 := if s.plot_width < pos.1 + w / 2 then
      gparams.boundary_force_strength * (pos.1 + w / 2 - s.plot_width)
    else 0
  let fy0 := if pos.2 - h / 2 < 0 then gparams.boundary_force_strength * |pos.2 - h / 2| else 0
  let fy1 := if s.plot_length < pos.2 + h / 2 then
      gparams.boundary_force_strength * (pos.2 + h / 2 - s.plot_length)
    else 0
  (fx0 - fx1, fy0 - fy1)

/-- Embedding of _calculate_boundary_force. -/
noncomputable def calculate_boundary_force (s : GS) (room_id : String) : ℝ × ℝ :=
  let pos := alGetD s.positions room_id (0, 0)
  let d := alGetD s.dimensions room_id (0, 0)
  if s.plot_shape = "irregular" ∧ polyTruthy s.plot_polygon then
    irregular_boundary_force s pos d.1 d.2
  else if s.plot_shape = "circular" ∧ s.plot_circle.isSome then
    circular_boundary_force s pos d.1 d.2
  else if s.plot_shape = "triangular" then triangular_boundary_force s pos d.1 d.2
  else rect_boundary_force s pos d.1 d.2

/-- Read-modify-write of a force entry (all keys touched exist in the
reachable states, so the missing-key append never fires there). -/
def alAdjust (fs : List (String × (ℝ × ℝ))) (k : String) (f : (ℝ × ℝ) → ℝ × ℝ) :
    List (String × (ℝ × ℝ)) :=
  alSet fs k (f (alGetD fs k (0, 0)))

/-- The ordered pairs (room_ids[i], room_ids[j]) for i < j, as the
nested Python loops produce them. -/
def orderedPairs {α : Type} : List α → List (α × α)
  | [] => []
  | x :: xs => xs.map (fun y => (x, y)) ++ orderedPairs xs

/-- Embedding of _calculate_all_forces: attraction over graph edges,
repulsion over non-adjacent ordered pairs (asymmetric for
outdoor/indoor pairs), then Vastu and boundary forces per room. -/
noncomputable def calculate_all_forces (s : GS) (G : NxGraph) (g : Rng) :
    List (String × (ℝ × ℝ)) × Rng :=
  let forces0 := s.positions.map (fun pr => (pr.1, ((0, 0) : ℝ × ℝ)))
  let forces1 := G.edges.foldl (fun fs e =>
    let f := calculate_attractive_force s e.1 e.2.1 e.2.2
    alAdjust (alAdjust fs e.1 (fun v => addV v f)) e.2.1 (fun v => subV v f)) forces0
  let room_ids := s.positions.map Prod.fst
  let rep := (orderedPairs room_ids).foldl
    (fun (acc : List (String × (ℝ × ℝ)) × Rng) pr =>
      if G.hasEdge pr.1 pr.2 then acc
      else
        let o1 := G.nodeOutdoor pr.1
        let o2 := G.nodeOutdoor pr.2
        let fr := calculate_repulsive_force s pr.1 pr.2 acc.2
        let fs2 :=
          if o1 && !o2 then alAdjust acc.1 pr.1 (fun v => addV v fr.1)
          else if o2 && !o1 then alAdjust acc.1 pr.2 (fun v => subV v fr.1)
          else alAdjust (alAdjust acc.1 pr.1 (fun v => addV v fr.1)) pr.2
            (fun v => subV v fr.1)
        (fs2, fr.2)) (forces1, g)
  let forces3 := room_ids.foldl (fun fs rid =>
    alAdjust fs rid (fun v => addV v (calculate_vastu_force s rid (G.nodeType rid)))) rep.1
  let forces4 := room_ids.foldl (fun fs rid =>
    alAdjust fs rid (fun v => addV v (calculate_boundary_force s rid))) forces3
  (forces4, rep.2)

/-- The hard-boundary enforcement of _physics_step (per shape). -/
noncomputable def enforce_bounds_step (s : GS) (p : ℝ × ℝ) (w h : ℝ) : ℝ × ℝ :=
  if s.plot_shape = "irregular" ∧ polyTruthy s.plot_polygon then
    project_inside_polygon s p w h
  else if s.plot_shape = "circular" ∧ s.plot_circle.isSome then
    project_inside_circle s p w h
  else if s.plot_shape = "triangular" then
    let p1 := (pyMax p.1 (w / 2), pyMax p.2 (h / 2))
    let p2 := triHypSnap s p1 w h
    let p3 :=
      match s.plot_polygon with
      | some poly =>
        if !poly.isEmpty && ! point_in_polygon p2 poly then project_point_inside p2 poly
        else p2
      | none => p2
    project_inside_polygon s p3 w h
  else
    (pyClip p.1 (w / 2) (s.plot_width - w / 2), pyClip p.2 (h / 2) (s.plot_length - h / 2))

/-- The per-room body of the _physics_step update loop: fixed nodes
only get their velocity zeroed; others integrate the force, move, and
are clamped to the plot. -/
noncomputable def stepRoom (forces : List (String × (ℝ × ℝ))) (acc : GS × ℝ) (rid : String) :
    GS × ℝ :=
  let s := acc.1
  if s.fixed_nodes.contains rid then
    ({ s with velocities := alSet s.velocities rid (0, 0) }, acc.2)
  else
    let v0 := alGetD s.velocities rid (0, 0)
    let f := alGetD forces rid (0, 0)
    let v1 := ((v0.1 + f.1) * gparams.damping, (v0.2 + f.2) * gparams.damping)
    let p0 := alGetD s.positions rid (0, 0)
    let p1 := (p0.1 + v1.1 * gparams.time_step, p0.2 + v1.2 * gparams.time_step)
    let d := alGetD s.dimensions rid (0, 0)
    let p2 := enforce_bounds_step s p1 d.1 d.2
    ({ s with
        velocities := alSet s.velocities rid v1
        positions := alSet s.positions rid p2 }, pyMax acc.2 (vecNorm v1))

/-- Embedding of _physics_step: returns the updated state and the
maximum velocity magnitude of the step. -/
noncomputable def physics_step (s : GS) (G : NxGraph) (g : Rng) : (GS × ℝ) × Rng :=
  let fg := calculate_all_forces s G g
  ((s.positions.map Prod.fst).foldl (stepRoom fg.1) (s, 0), fg.2)

/-- The iteration loop of _run_simulation, on fuel; returns
(state, converged, iterations reported). -/
noncomputable def run_sim_loop (G : NxGraph) : ℕ → ℕ → GS → Rng → (GS × Bool × ℕ) × Rng
  | 0, _, s, g => ((s, false, gparams.max_iterations), g)
  | fuel + 1, it, s, g =>
    let st := physics_step s G g
    if st.1.2 < gparams.convergence_threshold then ((st.1.1, true, it + 1), st.2)
    else run_sim_loop G fuel (it + 1) st.1.1 st.2

/-- Embedding of _run_simulation. -/
noncomputable def run_simulation (s : GS) (G : NxGraph) (g : Rng) : (GS × Bool × ℕ) × Rng :=
  run_sim_loop G gparams.max_iterations 0 s g

/-- Embedding of _check_overlap (strict axis-aligned rectangle
overlap on the current positions and dimensions). -/
noncomputable def check_overlap (s : GS) (r1 r2 : String) : Bool :=
  let pos1 := alGetD s.positions r1 (0, 0)
  let pos2 := alGetD s.positions r2 (0, 0)
  let d1 := alGetD s.dimensions r1 (0, 0)
  let d2 := alGetD s.dimensions r2 (0, 0)
  let x1 := pos1.1 - d1.1 / 2
  let y1 := pos1.2 - d1.2 / 2
  let x2 := pos2.1 - d2.1 / 2
  let y2 := pos2.2 - d2.2 / 2
  if x1 < x2 + d2.1 ∧ x2 < x1 + d1.1 ∧ y1 < y2 + d2.2 ∧ y2 < y1 + d1.2 then true else false

/-- The boundary enforcement of _resolve_overlaps (note: unlike
_physics_step, it has no circular branch, and it never consults
fixed_nodes). -/
noncomputable def enforce_bounds_resolve (s : GS) (rid : String) : GS :=
  let d := alGetD s.dimensions rid (0, 0)
  let p := alGetD s.positions rid (0, 0)
  let p2 :=
    if s.plot_shape = "irregular" ∧ polyTruthy s.plot_polygon then
      project_inside_polygon s p d.1 d.2
    else if s.plot_shape = "triangular" then
      triHypSnap s (pyMax p.1 (d.1 / 2), pyMax p.2 (d.2 / 2)) d.1 d.2
    else
      (pyClip p.1 (d.1 / 2) (s.plot_width - d.1 / 2),
       pyClip p.2 (d.2 / 2) (s.plot_length - d.2 / 2))
  { s with positions := alSet s.positions rid p2 }

/-- The per-pair body of a _resolve_overlaps sweep. -/
noncomputable def resolvePair (acc : (GS × ℕ) × Rng) (pr : String × String) :
    (GS × ℕ) × Rng :=
  let s := acc.1.1
  if check_overlap s pr.1 pr.2 then
    let pos1 := alGetD s.positions pr.1 (0, 0)
    let pos2 := alGetD s.positions pr.2 (0, 0)
    let delta0 := subV pos1 pos2
    let dist0 := vecNorm delta0
    let dr : (ℝ × ℝ) × ℝ × Rng :=
      if dist0 < 0.1 then
        let u1 := nextUniform (-1) 1 acc.2
        let u2 := nextUniform (-1) 1 u1.2
        ((u1.1, u2.1), vecNorm (u1.1, u2.1), u2.2)
      else (delta0, dist0, acc.2)
    let direction := (dr.1.1 / dr.2.1, dr.1.2 / dr.2.1)
    let d1 := alGetD s.dimensions pr.1 (0, 0)
    let d2 := alGetD s.dimensions pr.2 (0, 0)
    let required := (pyMax d1.1 d2.1 + pyMax d1.2 d2.2) / 2
    let push := (required - dr.2.1) / 2
    let np1 := (pos1.1 + direction.1 * push, pos1.2 + direction.2 * push)
    let np2 := (pos2.1 - direction.1 * push, pos2.2 - direction.2 * push)
    let s1 := { s with positions := alSet s.positions pr.1 np1 }
    let s2 := { s1 with positions := alSet s1.positions pr.2 np2 }
    ((enforce_bounds_resolve (enforce_bounds_resolve s2 pr.1) pr.2, acc.1.2 + 1), dr.2.2)
  else acc

/-- One sweep over all ordered room pairs of _resolve_overlaps. -/
noncomputable def resolveSweep (s : GS) (g : Rng) : (GS × ℕ) × Rng :=
  (orderedPairs (s.positions.map Prod.fst)).foldl resolvePair ((s, 0), g)

/-- The outer loop of _resolve_overlaps (at most 20 sweeps, stopping
after a clean sweep; returns the last sweep's overlap count). -/
noncomputable def resolve_loop : ℕ → GS → Rng → ℕ → (GS × ℕ) × Rng
  | 0, s, g, last => ((s, last), g)
  | fuel + 1, s, g, _ =>
    let sw := resolveSweep s g
    if sw.1.2 = 0 then ((sw.1.1, 0), sw.2)
    else resolve_loop fuel sw.1.1 sw.2 sw.1.2

/-- Embedding of _resolve_overlaps. -/
noncomputable def resolve_overlaps (s : GS) (g : Rng) : (GS × ℕ) × Rng :=
  resolve_loop 20 s g 0

/-- Embedding of _infer_direction_from_pos. -/
noncomputable def infer_direction_from_pos (s : GS) (pos : ℝ × ℝ) : Direction :=
  let fx := if 0 < s.plot_width then pos.1 / s.plot_width else 0.5
  let fy := if 0 < s.plot_length then pos.2 / s.plot_length else 0.5
  if |fx - 0.5| < 0.15 ∧ |fy - 0.5| < 0.15 then .center
  else if fy < 0.33 then
    if fx < 0.33 then .northeast else if 0.66 < fx then .northwest else .north
  else if 0.66 < fy then
    if fx < 0.33 then .southeast else if 0.66 < fx then .southwest else .south
  else
    if fx < 0.33 then .east else if 0.66 < fx then .west else .center

/-- Minimum projected distance from a point to the polygon edges, as
the out-of-bounds scoring pass computes it (inf start modelled by the
head of the nonempty distance list; a polygon gets here only when
nonempty). -/
noncomputable def minEdgeDist (poly : List (ℝ × ℝ)) (c : ℝ × ℝ) : ℝ :=
  match (polyEdges poly).map (fun e => (project_point_to_edge c e.1 e.2).2) with
  | [] => 0
  | d :: ds => ds.foldl pyMin d

/-- Per-room out-of-bounds penalty of _calculate_score (section 3). -/
noncomputable def out_of_bounds_penalty (s : GS) (rid : String) (pos : ℝ × ℝ) : ℝ :=
  let d := alGetD s.dimensions rid (0, 0)
  let w := d.1
  let h := d.2
  if s.plot_shape = "irregular" ∧ polyTruthy s.plot_polygon then
    match s.plot_polygon with
    | none => 0
    | some poly =>
      ((rectCorners pos w h).filter (fun c => ! point_in_polygon c poly)).foldl
        (fun acc c => acc + pyMin 10 (minEdgeDist poly c * 2)) 0
  else if s.plot_shape = "triangular" then
    (if pos.1 - w / 2 < 0 ∨ pos.2 - h / 2 < 0 then (10 : ℝ) else 0) +
      (let val := (pos.1 + w / 2) / s.plot_width + (pos.2 + h / 2) / s.plot_length - 1
       if 0 < val then pyMin 10 (val * 100) else 0)
  else
    if pos.1 - w / 2 < 0 ∨ s.plot_width < pos.1 + w / 2 ∨ pos.2 - h / 2 < 0 ∨
        s.plot_length < pos.2 + h / 2 then 10
    else 0

/-- Per-room Vastu compliance contribution of _calculate_score
(section 4): indoor preferences carry their weight; outdoor entries
have only a preferred list, so the weight defaults to 0.5 and the
acceptable/avoid sets are empty. -/
noncomputable def vastu_compliance_bonus (s : GS) (G : NxGraph) (rid : String) (pos : ℝ × ℝ) :
    ℝ :=
  let rty := G.nodeType rid
  let outd := is_outdoor rty
  let prefs : Option (List Direction × List Direction × List Direction × ℝ) :=
    match (normalize_room_type rty).bind vastu_preferences with
    | some p => some (p.preferred, p.acceptable, p.avoid, p.weight)
    | none =>
      if outd then (outdoor_vastu_preferences (pyLower rty)).map (fun l => (l, [], [], 0.5))
      else none
  match prefs with
  | none => 0
  | some pr =>
    let dir := infer_direction_from_pos s pos
    if pr.1.contains dir then 1.5 * pr.2.2.2
    else if pr.2.1.contains dir then 0.5 * pr.2.2.2
    else if pr.2.2.1.contains dir then -(2 * pr.2.2.2)
    else 0

/-- Embedding of _calculate_score. -/
noncomputable def calculate_score (s : GS) (G : NxGraph) : ℝ :=
  let room_ids := s.positions.map Prod.fst
  let score1 := (100 : ℝ) -
    15 * (((orderedPairs room_ids).filter (fun pr => check_overlap s pr.1 pr.2)).length : ℝ)
  let score2 := G.edges.foldl (fun sc e =>
    let dist := vecNorm (subV (alGetD s.positions e.1 (0, 0)) (alGetD s.positions e.2.1 (0, 0)))
    if 10 < dist then sc - (dist - 10) * 0.5 else sc) score1
  let score3 := s.positions.foldl (fun sc pr => sc - out_of_bounds_penalty s pr.1 pr.2) score2
  let score4 := s.positions.foldl (fun sc pr => sc + vastu_compliance_bonus s G pr.1 pr.2) score3
  let score5 := s.dimensions.foldl (fun sc pr =>
    let w := pr.2.1
    let h := pr.2.2
    if w ≠ 0 ∧ h ≠ 0 ∧ 0 < pyMin w h then
      let ratio := pyMax w h / pyMin w h
      if 2.2 < ratio then sc - (ratio - 2.2) * 3 else sc
    else sc) score4
  pyMax 0 (pyMin 100 score5)

/-- A Room of the SolverResponse (the fields solve fills). -/
structure GRoomOut where
  id : String
  name : String
  type : String
  x : ℝ
  y : ℝ
  width : ℝ
  height : ℝ
  direction : Option String
  area : Option ℝ

/-- The SolverResponse model (generation_time is wall-clock and is
fixed to 0 in the embedding). -/
structure GResponse where
  rooms : List GRoomOut
  score : ℝ
  iterations : ℕ
  solver_type : String
  generation_time : ℝ
  converged : Bool
  warnings : List String

/-- The solver constructed by solve_floor_plan: plot dimensions from
the request and the lowercased plot shape (with the falsy fallback). -/
noncomputable def mkSolver (request : GRequest) : GS :=
  { plot_width := request.plot_width
    plot_length := request.plot_length
    plot_shape := pyLower (if request.plot_shape = "" then "rectangular" else request.plot_shape) }

/-- The shape/constraint parsing prologue of solve: refresh
plot_shape and constraints from the request, then load the irregular
polygon (falling back to rectangular with a warning when missing or
empty) and the circle (validated circles load directly; a circular
shape without one gets the inferred circle).  The malformed-circle
warning path of the source concerns ill-typed constraint dicts, which
the typed model cannot express. -/
noncomputable def parse_shape_constraints (s : GS) (request : GRequest) : GS × List String :=
  let s1 := { s with
    plot_shape := request.plot_shape
    constraints := request.constraints.getD {} }
  let pp : GS × List String :=
    if s1.plot_shape = "irregular" ∧ request.constraints.isSome then
      match (request.constraints.getD {}).plot_polygon with
      | some pd =>
        if pd ≠ [] then ({ s1 with plot_polygon := some pd }, [])
        else ({ s1 with plot_shape := "rectangular" },
          ["Irregular plot shape specified but no valid plot_polygon in constraints"])
      | none => ({ s1 with plot_shape := "rectangular" },
          ["Irregular plot shape specified but no valid plot_polygon in constraints"])
    else (s1, [])
  let s2 := pp.1
  let cc : GS × List String :=
    if s2.plot_shape = "circular" ∨
        (request.constraints.isSome ∧ (request.constraints.getD {}).circle.isSome) then
      match (request.constraints.getD {}).circle with
      | some cd => ({ s2 with plot_circle := some cd, plot_shape := "circular" }, [])
      | none =>
        if s2.plot_shape = "circular" then
          let inferred := ((s2.plot_width / 2, s2.plot_length / 2),
            pyMin s2.plot_width s2.plot_length / 2)
          ({ s2 with plot_circle := some inferred }, [])
        else (s2, [])
    else (s2, [])
  (cc.1, pp.2 ++ cc.2)

/-- The _is_room_outdoor predicate of solve. -/
def is_room_outdoor (outdoor_list : List String) (room : GRoom) : Bool :=
  is_outdoor room.type || outdoor_list.contains room.id || outdoor_list.contains room.type

/-- Result of a solve phase: state, convergence flag, iteration count,
scoring graph, accumulated warnings, generator. -/
structure PhaseOut where
  s : GS
  converged : Bool
  iterations : ℕ
  G : Option NxGraph
  warnings : List String
  g : Rng

/-- Phase 1 of solve: indoor placement (graph, init, simulation,
overlap resolution, freezing of the indoor nodes). -/
noncomputable def phase1 (s1 : GS) (indoor_rooms : List GRoom) (g : Rng) : PhaseOut :=
  if indoor_rooms.isEmpty then ⟨s1, true, 0, none, [], g⟩
  else
    let Gi := build_adjacency_graph indoor_rooms
    let ip := initialize_positions s1 indoor_rooms g
    let rs := run_simulation ip.1 Gi ip.2
    let ro := resolve_overlaps rs.1.1 rs.2
    let w := if 0 < ro.1.2 then [s!"Phase-1: {ro.1.2} indoor overlaps remain"] else []
    ⟨{ ro.1.1 with fixed_nodes := indoor_rooms.map (fun r => r.id) },
      rs.1.2.1, rs.1.2.2, some Gi, w, ro.2⟩

/-- Phase 2 of solve: outdoor placement over the full graph when
outdoor rooms exist (the fresh convergence flag only feeds a warning;
the response keeps phase 1's), else — when phase 1 also had nothing —
a simulation over all (zero) rooms. -/
noncomputable def phase2 (p1 : PhaseOut) (outdoor_rooms all_rooms : List GRoom) : PhaseOut :=
  if outdoor_rooms.isEmpty then
    if p1.G.isSome then p1
    else
      let Gf := build_adjacency_graph all_rooms
      let ip := initialize_positions p1.s all_rooms p1.g
      let rs := run_simulation ip.1 Gf ip.2
      ⟨rs.1.1, rs.1.2.1, rs.1.2.2, some Gf, p1.warnings, rs.2⟩
  else
    let ip := initialize_positions p1.s outdoor_rooms p1.g
    let Gf := build_adjacency_graph all_rooms
    let rs := run_simulation ip.1 Gf ip.2
    let w1 := if ! rs.1.2.1 then ["Phase-2: outdoor placement did not fully converge"] else []
    let ro := resolve_overlaps rs.1.1 rs.2
    let w2 := if 0 < ro.1.2 then
        [s!"Phase-2: {ro.1.2} overlaps remain after outdoor placement"]
      else []
    ⟨ro.1.1, p1.converged, p1.iterations + rs.1.2.2, some Gf, p1.warnings ++ w1 ++ w2, ro.2⟩

/-- The response Room built for one requested room: center converted
to corner, everything rounded to 2 decimals, area filled by
calculate_area (only when both rounded sides are truthy). -/
noncomputable def mkRoomOut (s : GS) (rd : GRoom) : GRoomOut :=
  let pos := alGetD s.positions rd.id (0, 0)
  let d := alGetD s.dimensions rd.id (0, 0)
  let w := round2 d.1
  let h := round2 d.2
  { id := rd.id
    name := rd.name
    type := rd.type
    x := round2 (pos.1 - d.1 / 2)
    y := round2 (pos.2 - d.2 / 2)
    width := w
    height := h
    direction := rd.direction
    area := if w ≠ 0 ∧ h ≠ 0 then some (w * h) else none }

/-- Embedding of GraphBasedLayoutSolver.solve on a fresh solver. -/
noncomputable def solveG (request : GRequest) (g : Rng) : GResponse × Rng :=
  let pc := parse_shape_constraints (mkSolver request) request
  let outdoor_list := request.outdoor_fixtures.getD []
  let indoor_rooms := request.rooms.filter (fun r => ! is_room_outdoor outdoor_list r)
  let outdoor_rooms := request.rooms.filter (fun r => is_room_outdoor outdoor_list r)
  let p2 := phase2 (phase1 pc.1 indoor_rooms g) outdoor_rooms request.rooms
  let w1 := if ! p2.converged then ["Physics simulation did not fully converge"] else []
  let ro := resolve_overlaps p2.s p2.g
  let w2 := if 0 < ro.1.2 then [s!"{ro.1.2} room overlaps could not be resolved"] else []
  let Gf := match p2.G with
    | some G => G
    | none => build_adjacency_graph request.rooms
  let score := calculate_score ro.1.1 Gf
  ({ rooms := request.rooms.map (fun rd => mkRoomOut ro.1.1 rd)
     score := round2 score
     iterations := p2.iterations
     solver_type := "graph"
     generation_time := 0
     converged := p2.converged
     warnings := pc.2 ++ p2.warnings ++ w1 ++ w2 }, ro.2)

/-- Embedding of the module-level solve_floor_plan: construct the
solver, which calls np.random.seed(seed) exactly when the request
carries a seed — modelled by seedFn, the deterministic state the
global generator holds right after np.random.seed(s).  Without a
seed the ambient generator state g is used as-is. -/
noncomputable def solve_floor_plan (seedFn : ℤ → Rng) (request : GRequest) (g : Rng) :
    GResponse × Rng :=
  match request.seed with
  | some sd => solveG request (seedFn sd)
  | none => solveG request g

end GraphSolverSection

section GraphClaims

/-- Unfolding of one simulation iteration. -/
lemma run_sim_loop_succ (G : NxGraph) (fuel it : ℕ) (s : GS) (g : Rng) :
    run_sim_loop G (fuel + 1) it s g =
      if (physics_step s G g).1.2 < gparams.convergence_threshold then
        (((physics_step s G g).1.1, true, it + 1), (physics_step s G g).2)
      else run_sim_loop G fuel (it + 1) (physics_step s G g).1.1 (physics_step s G g).2 := rfl

/-- A simulation whose first step already meets the convergence
threshold stops after one iteration. -/
lemma run_simulation_one (s : GS) (G : NxGraph) (g : Rng)
    (h : (physics_step s G g).1.2 < gparams.convergence_threshold) :
    run_simulation s G g = (((physics_step s G g).1.1, true, 1), (physics_step s G g).2) := by
  rw [run_simulation, show gparams.max_iterations = 99 + 1 from rfl, run_sim_loop_succ, if_pos h]

/-- Unfolding of one overlap-resolution sweep. -/
lemma resolve_loop_succ (fuel : ℕ) (s : GS) (g : Rng) (last : ℕ) :
    resolve_loop (fuel + 1) s g last =
      if (resolveSweep s g).1.2 = 0 then (((resolveSweep s g).1.1, 0), (resolveSweep s g).2)
      else resolve_loop fuel (resolveSweep s g).1.1 (resolveSweep s g).2 (resolveSweep s g).1.2 :=
  rfl

/-- The request with an empty rooms list (all other fields at their
defaults). -/
noncomputable def reqEmpty : GRequest := { rooms := [] }

/-- The solver state solve reaches for reqEmpty before any phase. -/
noncomputable def sEmpty : GS :=
  { plot_width := 30, plot_length := 30, plot_shape := "rectangular" }

/-- The graph built from no rooms. -/
def gEmpty : NxGraph := {}

/-- The tail of solveG for reqEmpty, abstracted over the result of
the (single) simulation run. -/
noncomputable def c8Tail (rs : (GS × Bool × ℕ) × Rng) : GResponse × Rng :=
  let p2 : PhaseOut := ⟨rs.1.1, rs.1.2.1, rs.1.2.2, some gEmpty, [], rs.2⟩
  let w1 := if ! p2.converged then ["Physics simulation did not fully converge"] else []
  let ro := resolve_overlaps p2.s p2.g
  let w2 := if 0 < ro.1.2 then [s!"{ro.1.2} room overlaps could not be resolved"] else []
  let score := calculate_score ro.1.1 gEmpty
  ({ rooms := []
     score := round2 score
     iterations := p2.iterations
     solver_type := "graph"
     generation_time := 0
     converged := p2.converged
     warnings := [] ++ p2.warnings ++ w1 ++ w2 }, ro.2)

lemma c8_shape (g : Rng) :
    solveG reqEmpty g = c8Tail (run_simulation sEmpty gEmpty g) := rfl

lemma c8_step (g : Rng) : physics_step sEmpty gEmpty g = ((sEmpty, 0), g) := rfl

lemma c8_sim (g : Rng) : run_simulation sEmpty gEmpty g = ((sEmpty, true, 1), g) := by
  have h : (physics_step sEmpty gEmpty g).1.2 < gparams.convergence_threshold := by
    rw [c8_step]
    show (0 : ℝ) < (0.01 : ℝ)
    norm_num
  rw [run_simulation_one sEmpty gEmpty g h, c8_step]

lemma c8_score : round2 (calculate_score sEmpty gEmpty) = 100 := by
  have h : calculate_score sEmpty gEmpty =
      pyMax 0 (pyMin 100 (100 - 15 * ((0 : ℕ) : ℝ))) := rfl
  rw [h]
  norm_num [pyMin, pyMax, round2, roundHalfEven, Int.fract, round_eq]

lemma c8_eval (g : Rng) :
    (solveG reqEmpty g).1 =
      { rooms := []
        score := 100
        iterations := 1
        solver_type := "graph"
        generation_time := 0
        converged := true
        warnings := [] } := by
  rw [c8_shape, c8_sim]
  show ({ rooms := []
          score := round2 (calculate_score sEmpty gEmpty)
          iterations := 1
          solver_type := "graph"
          generation_time := 0
          converged := true
          warnings := [] } : GResponse) = _
  rw [c8_score]

/-- C8: a request with an empty rooms list is not rejected — the
graph solver returns a successful response (rooms [], score 100,
converged) for it, for every seed function and every state of the
ambient generator. -/
theorem C8_empty_rooms_success (seedFn : ℤ → Rng) (g : Rng) :
    (solve_floor_plan seedFn reqEmpty g).1 =
      { rooms := []
        score := 100
        iterations := 1
        solver_type := "graph"
        generation_time := 0
        converged := true
        warnings := [] } := by
  show (solveG reqEmpty g).1 = _
  exact c8_eval g

/-- C8 counterexample: the concrete empty-rooms request yields a
successful layout response instead of an InvalidRequest failure. -/
theorem C8_counterexample :
    (solve_floor_plan (fun _ => rngZero) reqEmpty rngZero).1.rooms = [] ∧
    (solve_floor_plan (fun _ => rngZero) reqEmpty rngZero).1.score = 100 ∧
    (solve_floor_plan (fun _ => rngZero) reqEmpty rngZero).1.converged = true := by
  have h : (solve_floor_plan (fun _ => rngZero) reqEmpty rngZero).1 =
      (solveG reqEmpty rngZero).1 := rfl
  rw [h, c8_eval rngZero]
  exact ⟨rfl, rfl, rfl⟩

/-- A solver state at the start of the final overlap-resolution pass
of a two-phase solve: indoor room A is frozen at (5,5), outdoor room B
sits at (5.5,5), both 4 x 4, on the default 30 x 30 rectangular plot. -/
noncomputable def sFixAB : GS :=
  { plot_width := 30
    plot_length := 30
    plot_shape := "rectangular"
    fixed_nodes := ["A"]
    positions := [("A", (5, 5)), ("B", (5.5, 5))]
    velocities := [("A", (0, 0)), ("B", (0, 0))]
    dimensions := [("A", (4, 4)), ("B", (4, 4))] }

/-- The state after the first resolution sweep pushes both rooms
apart, A included, though A is in fixed_nodes. -/
noncomputable def sFixAB2 : GS :=
  { plot_width := 30
    plot_length := 30
    plot_shape := "rectangular"
    fixed_nodes := ["A"]
    positions := [("A", (3.25, 5)), ("B", (7.25, 5))]
    velocities := [("A", (0, 0)), ("B", (0, 0))]
    dimensions := [("A", (4, 4)), ("B", (4, 4))] }

lemma c2_overlap1 : check_overlap sFixAB "A" "B" = true := by
  simp only [check_overlap,
    show alGetD sFixAB.positions "A" (0, 0) = ((5 : ℝ), (5 : ℝ)) from rfl,
    show alGetD sFixAB.positions "B" (0, 0) = ((5.5 : ℝ), (5 : ℝ)) from rfl,
    show alGetD sFixAB.dimensions "A" (0, 0) = ((4 : ℝ), (4 : ℝ)) from rfl,
    show alGetD sFixAB.dimensions "B" (0, 0) = ((4 : ℝ), (4 : ℝ)) from rfl]
  norm_num

/-- The family of states traversed by the C2 sweep: plot and
dimensions fixed, A and B at the given centers. -/
noncomputable def c2mid (p q : ℝ × ℝ) : GS :=
  { plot_width := 30
    plot_length := 30
    plot_shape := "rectangular"
    fixed_nodes := ["A"]
    positions := [("A", p), ("B", q)]
    velocities := [("A", (0, 0)), ("B", (0, 0))]
    dimensions := [("A", (4, 4)), ("B", (4, 4))] }

lemma c2_enforceA (p q : ℝ × ℝ) :
    enforce_bounds_resolve (c2mid p q) "A" =
      c2mid (pyClip p.1 (4 / 2) (30 - 4 / 2), pyClip p.2 (4 / 2) (30 - 4 / 2)) q := by
  simp only [enforce_bounds_resolve]
  rw [if_neg (show ¬((c2mid p q).plot_shape = "irregular" ∧
        polyTruthy (c2mid p q).plot_polygon = true) from fun hc =>
      (by decide : ¬(("rectangular" : String) = "irregular" ∧ polyTruthy none = true)) hc),
    if_neg (show ¬(c2mid p q).plot_shape = "triangular" from fun hc =>
      (by decide : ¬(("rectangular" : String) = "triangular")) hc)]
  rfl

lemma c2_enforceB (p q : ℝ × ℝ) :
    enforce_bounds_resolve (c2mid p q) "B" =
      c2mid p (pyClip q.1 (4 / 2) (30 - 4 / 2), pyClip q.2 (4 / 2) (30 - 4 / 2)) := by
  simp only [enforce_bounds_resolve]
  rw [if_neg (show ¬((c2mid p q).plot_shape = "irregular" ∧
        polyTruthy (c2mid p q).plot_polygon = true) from fun hc =>
      (by decide : ¬(("rectangular" : String) = "irregular" ∧ polyTruthy none = true)) hc),
    if_neg (show ¬(c2mid p q).plot_shape = "triangular" from fun hc =>
      (by decide : ¬(("rectangular" : String) = "triangular")) hc)]
  rfl

lemma c2_sweep1 : resolveSweep sFixAB rngZero = ((sFixAB2, 1), rngZero) := by
  show resolvePair ((sFixAB, 0), rngZero) ("A", "B") = ((sFixAB2, 1), rngZero)
  simp only [resolvePair, c2_overlap1, if_true,
    show alGetD sFixAB.positions "A" (0, 0) = ((5 : ℝ), (5 : ℝ)) from rfl,
    show alGetD sFixAB.positions "B" (0, 0) = ((5.5 : ℝ), (5 : ℝ)) from rfl,
    show alGetD sFixAB.dimensions "A" (0, 0) = ((4 : ℝ), (4 : ℝ)) from rfl,
    show alGetD sFixAB.dimensions "B" (0, 0) = ((4 : ℝ), (4 : ℝ)) from rfl, subV, vecNorm]
  rw [show ((5 : ℝ) - 5.5) * ((5 : ℝ) - 5.5) + ((5 : ℝ) - 5) * ((5 : ℝ) - 5) =
    ((0.5 : ℝ)) ^ 2 from by norm_num, Real.sqrt_sq (by norm_num : (0:ℝ) ≤ 0.5)]
  rw [if_neg (by norm_num : ¬ ((0.5 : ℝ) < 0.1))]
  have hA : ∀ v : ℝ × ℝ, alSet sFixAB.positions "A" v = [("A", v), ("B", (5.5, 5))] :=
    fun _ => rfl
  have hB : ∀ a b v : ℝ × ℝ, alSet [("A", a), ("B", b)] "B" v = [("A", a), ("B", v)] :=
    fun _ _ _ => rfl
  norm_num [hA, hB, pyMax]
  show enforce_bounds_resolve (enforce_bounds_resolve (c2mid (13 / 4, 5) (29 / 4, 5)) "A") "B" =
    sFixAB2
  rw [c2_enforceA, c2_enforceB]
  simp only [c2mid, sFixAB2, GS.mk.injEq, List.cons.injEq, Prod.mk.injEq, and_true, true_and]
  norm_num [pyClip, pyMin, pyMax]

lemma c2_overlap2 : check_overlap sFixAB2 "A" "B" = false := by
  simp only [check_overlap,
    show alGetD sFixAB2.positions "A" (0, 0) = ((3.25 : ℝ), (5 : ℝ)) from rfl,
    show alGetD sFixAB2.positions "B" (0, 0) = ((7.25 : ℝ), (5 : ℝ)) from rfl,
    show alGetD sFixAB2.dimensions "A" (0, 0) = ((4 : ℝ), (4 : ℝ)) from rfl,
    show alGetD sFixAB2.dimensions "B" (0, 0) = ((4 : ℝ), (4 : ℝ)) from rfl]
  norm_num

lemma c2_sweep2 : resolveSweep sFixAB2 rngZero = ((sFixAB2, 0), rngZero) := by
  show resolvePair ((sFixAB2, 0), rngZero) ("A", "B") = ((sFixAB2, 0), rngZero)
  simp only [resolvePair, c2_overlap2]
  rfl

/-- C2: _resolve_overlaps ignores fixed_nodes — the frozen indoor
room A is pushed from (5,5) to (3.25,5), even though _physics_step
does leave every fixed room's position unchanged. -/
theorem C2_fixed_room_moves :
    sFixAB.fixed_nodes = ["A"] ∧
    alGet sFixAB.positions "A" = some (5, 5) ∧
    (∀ (G : NxGraph) (g : Rng),
      alGet (physics_step sFixAB G g).1.1.positions "A" = some (5, 5)) ∧
    alGet (resolve_overlaps sFixAB rngZero).1.1.positions "A" = some (3.25, 5) := by
  refine ⟨rfl, rfl, fun G g => rfl, ?_⟩
  rw [resolve_overlaps, show (20 : ℕ) = 19 + 1 from rfl, resolve_loop_succ, c2_sweep1]
  rw [if_neg (by norm_num : ¬((((sFixAB2, 1), rngZero) : (GS × ℕ) × Rng).1.2 = 0))]
  show alGet (resolve_loop 19 sFixAB2 rngZero 1).1.1.positions "A" = some (3.25, 5)
  rw [show (19 : ℕ) = 18 + 1 from rfl, resolve_loop_succ, c2_sweep2]
  rfl

/-- A one-room request with an unrecognized room type and no seed. -/
noncomputable def blobRoom : GRoom := { id := "r1", name := "R", type := "blob" }

noncomputable def reqBlob : GRequest := { rooms := [blobRoom] }

/-- Two ambient states of the numpy global generator. -/
noncomputable def gHalf : Rng := { stream := fun _ => 1 / 2, pos := 0 }

noncomputable def gQuarter : Rng := { stream := fun _ => 1 / 4, pos := 0 }

noncomputable def gHalf2 : Rng := { stream := fun _ => 1 / 2, pos := 2 }

noncomputable def gQuarter2 : Rng := { stream := fun _ => 1 / 4, pos := 2 }

noncomputable def gHalf4 : Rng := { stream := fun _ => 1 / 2, pos := 4 }

noncomputable def gQuarter4 : Rng := { stream := fun _ => 1 / 4, pos := 4 }

/-- The adjacency graph of the blob request: one node, no edges. -/
def gBlob : NxGraph := { nodes := [("r1", ⟨"blob", "R", false⟩)] }

/-- Solver state after initialization under the all-halves stream. -/
noncomputable def sBlobH : GS :=
  { plot_width := 30
    plot_length := 30
    plot_shape := "rectangular"
    positions := [("r1", (15, 15))]
    velocities := [("r1", (0, 0))]
    dimensions := [("r1", (4, 4))] }

/-- Solver state after initialization under the all-quarters stream. -/
noncomputable def sBlobQ : GS :=
  { plot_width := 30
    plot_length := 30
    plot_shape := "rectangular"
    positions := [("r1", (14, 14))]
    velocities := [("r1", (0, 0))]
    dimensions := [("r1", (3.9, 3.9))] }

lemma blob_dims_half : get_room_dimensions "blob" gHalf = ((4, 4), gHalf2) := by
  simp only [get_room_dimensions, show normalize_room_type "blob" = none by decide,
    nextUniform, Rng.next, gHalf, gHalf2]
  norm_num [round2, roundHalfEven, Int.fract, round_eq]

lemma blob_dims_quarter : get_room_dimensions "blob" gQuarter = ((3.9, 3.9), gQuarter2) := by
  simp only [get_room_dimensions, show normalize_room_type "blob" = none by decide,
    nextUniform, Rng.next, gQuarter, gQuarter2]
  norm_num [round2, roundHalfEven, Int.fract, round_eq]

lemma blob_init_half : initialize_positions sEmpty [blobRoom] gHalf = (sBlobH, gHalf4) := by
  show initOne (sEmpty, gHalf) blobRoom = (sBlobH, gHalf4)
  have htgt : ∀ s : GS, get_vastu_target_position s "blob" =
      (s.plot_width / 2, s.plot_length / 2) := by
    intro s
    simp only [get_vastu_target_position]
    rw [if_pos (by decide : (((normalize_room_type "blob").bind vastu_preferences).isNone &&
      (outdoor_vastu_preferences (pyLower "blob")).isNone) = true)]
  have h0 : ∀ v : ℝ × ℝ, alSet ([] : List (String × (ℝ × ℝ))) "r1" v = [("r1", v)] :=
    fun _ => rfl
  simp only [initOne, blobRoom, blob_dims_half, sEmpty, htgt, h0]
  rw [if_neg (by decide : ¬(("rectangular" : String) = "irregular" ∧ polyTruthy none = true)),
    if_neg (by decide : ¬(("rectangular" : String) = "triangular"))]
  simp only [nextUniform, Rng.next, gHalf2, sBlobH, gHalf4, Prod.mk.injEq, GS.mk.injEq,
    Rng.mk.injEq, List.cons.injEq]
  norm_num [pyClip, pyMin, pyMax]

lemma blob_init_quarter : initialize_positions sEmpty [blobRoom] gQuarter = (sBlobQ, gQuarter4) := by
  have htgt : ∀ s : GS, get_vastu_target_position s "blob" =
      (s.plot_width / 2, s.plot_length / 2) := by
    intro s
    simp only [get_vastu_target_position]
    rw [if_pos (by decide : (((normalize_room_type "blob").bind vastu_preferences).isNone &&
      (outdoor_vastu_preferences (pyLower "blob")).isNone) = true)]
  have h0 : ∀ v : ℝ × ℝ, alSet ([] : List (String × (ℝ × ℝ))) "r1" v = [("r1", v)] :=
    fun _ => rfl
  show initOne (sEmpty, gQuarter) blobRoom = (sBlobQ, gQuarter4)
  simp only [initOne, blobRoom, blob_dims_quarter, sEmpty, htgt, h0]
  rw [if_neg (by decide : ¬(("rectangular" : String) = "irregular" ∧ polyTruthy none = true)),
    if_neg (by decide : ¬(("rectangular" : String) = "triangular"))]
  simp only [nextUniform, Rng.next, gQuarter2, sBlobQ, gQuarter4, Prod.mk.injEq, GS.mk.injEq,
    Rng.mk.injEq, List.cons.injEq]
  norm_num [pyClip, pyMin, pyMax]

lemma blob_bf_half : calculate_boundary_force sBlobH "r1" = (0, 0) := by
  simp only [calculate_boundary_force,
    show alGetD sBlobH.positions "r1" (0, 0) = ((15 : ℝ), (15 : ℝ)) from rfl,
    show alGetD sBlobH.dimensions "r1" (0, 0) = ((4 : ℝ), (4 : ℝ)) from rfl]
  rw [if_neg (by decide : ¬(sBlobH.plot_shape = "irregular" ∧
      polyTruthy sBlobH.plot_polygon = true)),
    if_neg (by decide : ¬(sBlobH.plot_shape = "circular" ∧ sBlobH.plot_circle.isSome = true)),
    if_neg (by decide : ¬(sBlobH.plot_shape = "triangular"))]
  simp only [rect_boundary_force]
  norm_num [show sBlobH.plot_width = (30 : ℝ) from rfl, show sBlobH.plot_length = (30 : ℝ) from rfl]

lemma blob_bf_quarter : calculate_boundary_force sBlobQ "r1" = (0, 0) := by
  simp only [calculate_boundary_force,
    show alGetD sBlobQ.positions "r1" (0, 0) = ((14 : ℝ), (14 : ℝ)) from rfl,
    show alGetD sBlobQ.dimensions "r1" (0, 0) = ((3.9 : ℝ), (3.9 : ℝ)) from rfl]
  rw [if_neg (by decide : ¬(sBlobQ.plot_shape = "irregular" ∧
      polyTruthy sBlobQ.plot_polygon = true)),
    if_neg (by decide : ¬(sBlobQ.plot_shape = "circular" ∧ sBlobQ.plot_circle.isSome = true)),
    if_neg (by decide : ¬(sBlobQ.plot_shape = "triangular"))]
  simp only [rect_boundary_force]
  norm_num [show sBlobQ.plot_width = (30 : ℝ) from rfl, show sBlobQ.plot_length = (30 : ℝ) from rfl]

lemma blob_forces_half : calculate_all_forces sBlobH gBlob gHalf4 = ([("r1", (0, 0))], gHalf4) := by
  have h : calculate_all_forces sBlobH gBlob gHalf4 =
      ([("r1", addV (addV (0, 0) (0, 0)) (calculate_boundary_force sBlobH "r1"))], gHalf4) := rfl
  rw [h, blob_bf_half]
  norm_num [addV]

lemma blob_forces_quarter :
    calculate_all_forces sBlobQ gBlob gQuarter4 = ([("r1", (0, 0))], gQuarter4) := by
  have h : calculate_all_forces sBlobQ gBlob gQuarter4 =
      ([("r1", addV (addV (0, 0) (0, 0)) (calculate_boundary_force sBlobQ "r1"))], gQuarter4) :=
    rfl
  rw [h, blob_bf_quarter]
  norm_num [addV]

lemma blob_step_half : physics_step sBlobH gBlob gHalf4 = ((sBlobH, 0), gHalf4) := by
  show (stepRoom (calculate_all_forces sBlobH gBlob gHalf4).1 (sBlobH, 0) "r1",
    (calculate_all_forces sBlobH gBlob gHalf4).2) = ((sBlobH, 0), gHalf4)
  rw [blob_forces_half]
  simp only [stepRoom]
  rw [if_neg (by decide : ¬(sBlobH.fixed_nodes.contains "r1" = true))]
  simp only [enforce_bounds_step,
    show alGetD sBlobH.velocities "r1" (0, 0) = ((0 : ℝ), (0 : ℝ)) from rfl,
    show alGetD [("r1", ((0 : ℝ), (0 : ℝ)))] "r1" (0, 0) = ((0 : ℝ), (0 : ℝ)) from rfl,
    show alGetD sBlobH.positions "r1" (0, 0) = ((15 : ℝ), (15 : ℝ)) from rfl,
    show alGetD sBlobH.dimensions "r1" (0, 0) = ((4 : ℝ), (4 : ℝ)) from rfl]
  rw [if_neg (by decide : ¬(sBlobH.plot_shape = "irregular" ∧
      polyTruthy sBlobH.plot_polygon = true)),
    if_neg (by decide : ¬(sBlobH.plot_shape = "circular" ∧ sBlobH.plot_circle.isSome = true)),
    if_neg (by decide : ¬(sBlobH.plot_shape = "triangular"))]
  have hsetv : ∀ v : ℝ × ℝ, alSet sBlobH.velocities "r1" v = [("r1", v)] := fun _ => rfl
  have hsetp : ∀ v : ℝ × ℝ, alSet sBlobH.positions "r1" v = [("r1", v)] := fun _ => rfl
  simp only [hsetv, hsetp, Prod.mk.injEq, GS.mk.injEq, List.cons.injEq,
    show sBlobH.plot_width = (30 : ℝ) from rfl, show sBlobH.plot_length = (30 : ℝ) from rfl,
    show sBlobH.positions = [("r1", ((15 : ℝ), (15 : ℝ)))] from rfl,
    show sBlobH.velocities = [("r1", ((0 : ℝ), (0 : ℝ)))] from rfl, vecNorm]
  norm_num [pyClip, pyMin, pyMax, Real.sqrt_zero]
  rfl

lemma blob_step_quarter : physics_step sBlobQ gBlob gQuarter4 = ((sBlobQ, 0), gQuarter4) := by
  show (stepRoom (calculate_all_forces sBlobQ gBlob gQuarter4).1 (sBlobQ, 0) "r1",
    (calculate_all_forces sBlobQ gBlob gQuarter4).2) = ((sBlobQ, 0), gQuarter4)
  rw [blob_forces_quarter]
  simp only [stepRoom]
  rw [if_neg (by decide : ¬(sBlobQ.fixed_nodes.contains "r1" = true))]
  simp only [enforce_bounds_step,
    show alGetD sBlobQ.velocities "r1" (0, 0) = ((0 : ℝ), (0 : ℝ)) from rfl,
    show alGetD [("r1", ((0 : ℝ), (0 : ℝ)))] "r1" (0, 0) = ((0 : ℝ), (0 : ℝ)) from rfl,
    show alGetD sBlobQ.positions "r1" (0, 0) = ((14 : ℝ), (14 : ℝ)) from rfl,
    show alGetD sBlobQ.dimensions "r1" (0, 0) = ((3.9 : ℝ), (3.9 : ℝ)) from rfl]
  rw [if_neg (by decide : ¬(sBlobQ.plot_shape = "irregular" ∧
      polyTruthy sBlobQ.plot_polygon = true)),
    if_neg (by decide : ¬(sBlobQ.plot_shape = "circular" ∧ sBlobQ.plot_circle.isSome = true)),
    if_neg (by decide : ¬(sBlobQ.plot_shape = "triangular"))]
  have hsetv : ∀ v : ℝ × ℝ, alSet sBlobQ.velocities "r1" v = [("r1", v)] := fun _ => rfl
  have hsetp : ∀ v : ℝ × ℝ, alSet sBlobQ.positions "r1" v = [("r1", v)] := fun _ => rfl
  simp only [hsetv, hsetp, Prod.mk.injEq, GS.mk.injEq, List.cons.injEq,
    show sBlobQ.plot_width = (30 : ℝ) from rfl, show sBlobQ.plot_length = (30 : ℝ) from rfl,
    show sBlobQ.positions = [("r1", ((14 : ℝ), (14 : ℝ)))] from rfl,
    show sBlobQ.velocities = [("r1", ((0 : ℝ), (0 : ℝ)))] from rfl, vecNorm]
  norm_num [pyClip, pyMin, pyMax, Real.sqrt_zero]
  rfl

lemma blob_sim_half : run_simulation sBlobH gBlob gHalf4 = ((sBlobH, true, 1), gHalf4) := by
  have h : (physics_step sBlobH gBlob gHalf4).1.2 < gparams.convergence_threshold := by
    rw [blob_step_half]
    show (0 : ℝ) < (0.01 : ℝ)
    norm_num
  rw [run_simulation_one _ _ _ h, blob_step_half]

lemma blob_sim_quarter : run_simulation sBlobQ gBlob gQuarter4 = ((sBlobQ, true, 1), gQuarter4) := by
  have h : (physics_step sBlobQ gBlob gQuarter4).1.2 < gparams.convergence_threshold := by
    rw [blob_step_quarter]
    show (0 : ℝ) < (0.01 : ℝ)
    norm_num
  rw [run_simulation_one _ _ _ h, blob_step_quarter]

/-- Phase-1 state after the blob solve under the halves stream, with
the indoor node frozen. -/
noncomputable def sBlobHF : GS :=
  { plot_width := 30
    plot_length := 30
    plot_shape := "rectangular"
    fixed_nodes := ["r1"]
    positions := [("r1", (15, 15))]
    velocities := [("r1", (0, 0))]
    dimensions := [("r1", (4, 4))] }

noncomputable def sBlobQF : GS :=
  { plot_width := 30
    plot_length := 30
    plot_shape := "rectangular"
    fixed_nodes := ["r1"]
    positions := [("r1", (14, 14))]
    velocities := [("r1", (0, 0))]
    dimensions := [("r1", (3.9, 3.9))] }

/-- Phase 1 of the blob solve, abstracted over initialization. -/
noncomputable def blobPhase1Shape (ip : GS × Rng) : PhaseOut :=
  let rs := run_simulation ip.1 gBlob ip.2
  let ro := resolve_overlaps rs.1.1 rs.2
  let w := if 0 < ro.1.2 then [s!"Phase-1: {ro.1.2} indoor overlaps remain"] else []
  ⟨{ ro.1.1 with fixed_nodes := ["r1"] }, rs.1.2.1, rs.1.2.2, some gBlob, w, ro.2⟩

lemma blob_phase1_half : phase1 sEmpty [blobRoom] gHalf = ⟨sBlobHF, true, 1, some gBlob, [], gHalf4⟩ := by
  rw [show phase1 sEmpty [blobRoom] gHalf =
    blobPhase1Shape (initialize_positions sEmpty [blobRoom] gHalf) from rfl, blob_init_half]
  simp only [blobPhase1Shape]
  rw [blob_sim_half]
  rfl

lemma blob_phase1_quarter :
    phase1 sEmpty [blobRoom] gQuarter = ⟨sBlobQF, true, 1, some gBlob, [], gQuarter4⟩ := by
  rw [show phase1 sEmpty [blobRoom] gQuarter =
    blobPhase1Shape (initialize_positions sEmpty [blobRoom] gQuarter) from rfl, blob_init_quarter]
  simp only [blobPhase1Shape]
  rw [blob_sim_quarter]
  rfl

/-- The tail of the blob solve, abstracted over phase 1. -/
noncomputable def blobTail (p2 : PhaseOut) : GResponse × Rng :=
  let w1 := if ! p2.converged then ["Physics simulation did not fully converge"] else []
  let ro := resolve_overlaps p2.s p2.g
  let w2 := if 0 < ro.1.2 then [s!"{ro.1.2} room overlaps could not be resolved"] else []
  let Gf := match p2.G with | some G => G | none => build_adjacency_graph [blobRoom]
  ({ rooms := [mkRoomOut ro.1.1 blobRoom]
     score := round2 (calculate_score ro.1.1 Gf)
     iterations := p2.iterations
     solver_type := "graph"
     generation_time := 0
     converged := p2.converged
     warnings := [] ++ p2.warnings ++ w1 ++ w2 }, ro.2)

lemma blob_solve_shape (g : Rng) :
    solveG reqBlob g = blobTail (phase2 (phase1 sEmpty [blobRoom] g) [] [blobRoom]) := rfl

lemma blob_geom_half :
    (solve_floor_plan (fun _ => rngZero) reqBlob gHalf).1.rooms.map
      (fun r => (r.x, r.y, r.width, r.height)) = [(13, 13, 4, 4)] := by
  show (solveG reqBlob gHalf).1.rooms.map (fun r => (r.x, r.y, r.width, r.height)) = _
  rw [blob_solve_shape, blob_phase1_half]
  show [mkRoomOut sBlobHF blobRoom].map (fun r => (r.x, r.y, r.width, r.height)) =
    [(13, 13, 4, 4)]
  simp only [List.map_cons, List.map_nil, mkRoomOut, blobRoom,
    show alGetD sBlobHF.positions "r1" (0, 0) = ((15 : ℝ), (15 : ℝ)) from rfl,
    show alGetD sBlobHF.dimensions "r1" (0, 0) = ((4 : ℝ), (4 : ℝ)) from rfl]
  norm_num [round2, roundHalfEven, Int.fract, round_eq]

lemma blob_geom_quarter :
    (solve_floor_plan (fun _ => rngZero) reqBlob gQuarter).1.rooms.map
      (fun r => (r.x, r.y, r.width, r.height)) = [(12.05, 12.05, 3.9, 3.9)] := by
  show (solveG reqBlob gQuarter).1.rooms.map (fun r => (r.x, r.y, r.width, r.height)) = _
  rw [blob_solve_shape, blob_phase1_quarter]
  show [mkRoomOut sBlobQF blobRoom].map (fun r => (r.x, r.y, r.width, r.height)) =
    [(12.05, 12.05, 3.9, 3.9)]
  simp only [List.map_cons, List.map_nil, mkRoomOut, blobRoom,
    show alGetD sBlobQF.positions "r1" (0, 0) = ((14 : ℝ), (14 : ℝ)) from rfl,
    show alGetD sBlobQF.dimensions "r1" (0, 0) = ((3.9 : ℝ), (3.9 : ℝ)) from rfl]
  norm_num [round2, roundHalfEven, Int.fract, round_eq]

/-- C1 counterexample: with no seed, the output geometry of the same
request depends on the ambient generator state. -/
theorem C1_counterexample :
    reqBlob.seed = none ∧
    (solve_floor_plan (fun _ => rngZero) reqBlob gHalf).1.rooms.map
        (fun r => (r.x, r.y, r.width, r.height)) ≠
      (solve_floor_plan (fun _ => rngZero) reqBlob gQuarter).1.rooms.map
        (fun r => (r.x, r.y, r.width, r.height)) := by
  refine ⟨rfl, ?_⟩
  rw [blob_geom_half, blob_geom_quarter]
  intro h
  simp only [List.cons.injEq, Prod.mk.injEq, and_true] at h
  exact absurd h.1 (by norm_num)

/-- C1 (amended): with a seed, the run is independent of the ambient
generator state. -/
theorem C1_seeded_deterministic (seedFn : ℤ → Rng) (request : GRequest) (sd : ℤ)
    (h : request.seed = some sd) (g g2 : Rng) :
    solve_floor_plan seedFn request g = solve_floor_plan seedFn request g2 := by
  simp only [solve_floor_plan, h]

noncomputable def reqSeeded : GRequest := { rooms := [], seed := some 0 }

theorem C1_seeded_deterministic_witness :
    reqSeeded.seed = some 0 ∧
      solve_floor_plan (fun _ => rngZero) reqSeeded gHalf =
        solve_floor_plan (fun _ => rngZero) reqSeeded gQuarter :=
  ⟨rfl, C1_seeded_deterministic (fun _ => rngZero) reqSeeded 0 rfl gHalf gQuarter⟩

end GraphClaims

end VastuAI

